import Mathlib

/-!
Shallow embedding of the core of the fast-formula-parser repository
(src/formulas/error.ts, src/formulas/helpers.ts, src/formulas/operators.ts,
src/grammar/hooks.ts, src/grammar/utils.ts, src/grammar/dependency/hooks.ts).

JavaScript numbers are modelled as an inductive type over exact rationals
plus the special values NaN, the two infinities and the negative zero.
Rounding and overflow of IEEE doubles are not modelled; no theorem below
depends on them.  Fallible code is modelled with Except: a thrown
FormulaError, a thrown plain Error and a TypeError raised by a member
access on null or undefined are the three exceptional outcomes.
-/

set_option maxHeartbeats 1000000

/-- Model of a JavaScript number: exact rationals for the finite values,
plus NaN, the infinities and negative zero.  `fin 0` is positive zero. -/
inductive JNum where
  | nan : JNum
  | posInf : JNum
  | negInf : JNum
  | negZero : JNum
  | fin : ℚ → JNum
deriving DecidableEq

/-- Model of the JavaScript `isNaN` test. -/
def JNum.isNaNb : JNum → Bool
  | .nan => true
  | _ => false

/-- Model of the JavaScript `isFinite` test. -/
def JNum.isFiniteb : JNum → Bool
  | .fin _ => true
  | .negZero => true
  | _ => false

/-- Whether the number is a zero (`x === 0` in JavaScript is true for both
positive and negative zero). -/
def JNum.isZero : JNum → Bool
  | .fin q => q == 0
  | .negZero => true
  | _ => false

/-- Whether the number is strictly negative (negative zero counts as a
negatively signed value for sign computations). -/
def JNum.isNegSign : JNum → Bool
  | .negInf => true
  | .negZero => true
  | .fin q => q < 0
  | _ => false

/-- JavaScript addition on numbers (IEEE special-value rules, exact
rational arithmetic for the finite case). -/
def jadd : JNum → JNum → JNum
  | .nan, _ => .nan
  | _, .nan => .nan
  | .posInf, .negInf => .nan
  | .negInf, .posInf => .nan
  | .posInf, _ => .posInf
  | _, .posInf => .posInf
  | .negInf, _ => .negInf
  | _, .negInf => .negInf
  | .negZero, .negZero => .negZero
  | .negZero, x => x
  | x, .negZero => x
  | .fin a, .fin b => .fin (a + b)

/-- JavaScript unary negation on numbers. -/
def jneg : JNum → JNum
  | .nan => .nan
  | .posInf => .negInf
  | .negInf => .posInf
  | .negZero => .fin 0
  | .fin q => if q = 0 then .negZero else .fin (-q)

/-- JavaScript subtraction on numbers. -/
def jsub (a b : JNum) : JNum := jadd a (jneg b)

/-- JavaScript multiplication on numbers. -/
def jmul : JNum → JNum → JNum
  | .nan, _ => .nan
  | _, .nan => .nan
  | .posInf, b =>
      if b.isZero then .nan else if b.isNegSign then .negInf else .posInf
  | a, .posInf =>
      if a.isZero then .nan else if a.isNegSign then .negInf else .posInf
  | .negInf, b =>
      if b.isZero then .nan else if b.isNegSign then .posInf else .negInf
  | a, .negInf =>
      if a.isZero then .nan else if a.isNegSign then .posInf else .negInf
  | .negZero, b => if b.isNegSign then .fin 0 else .negZero
  | a, .negZero => if a.isNegSign then .fin 0 else .negZero
  | .fin a, .fin b =>
      if a * b = 0 then
        (if (a < 0) ≠ (b < 0) then .negZero else .fin 0)
      else .fin (a * b)

/-- JavaScript division on numbers. -/
def jdiv : JNum → JNum → JNum
  | .nan, _ => .nan
  | _, .nan => .nan
  | .posInf, .posInf => .nan
  | .posInf, .negInf => .nan
  | .negInf, .posInf => .nan
  | .negInf, .negInf => .nan
  | .posInf, b => if b.isNegSign then .negInf else .posInf
  | .negInf, b => if b.isNegSign then .posInf else .negInf
  | a, .posInf => if a.isNegSign then .negZero else .fin 0
  | a, .negInf => if a.isNegSign then .negZero else .fin 0
  | .negZero, b =>
      if b.isZero then .nan else if b.isNegSign then .fin 0 else .negZero
  | .fin a, .fin b =>
      if b = 0 then
        (if a = 0 then .nan else if a < 0 then .negInf else .posInf)
      else if a = 0 then
        (if b < 0 then .negZero else .fin 0)
      else .fin (a / b)
  | .fin a, .negZero =>
      if a = 0 then .nan else if a < 0 then .posInf else .negInf

/-- Whether a rational is an odd integer, used by the Math.pow rules. -/
def ratIsOddInt (q : ℚ) : Bool := q.den == 1 && q.num % 2 != 0

/-- Whether a rational is an integer. -/
def ratIsInt (q : ℚ) : Bool := q.den == 1

/-- Model of `Math.pow`, following the ECMAScript special-case table.
For a positive finite base and a non-integer exponent the true result is
generally irrational, which the rational model cannot represent; that case
is modelled as NaN and no theorem below depends on it. -/
def jpow : JNum → JNum → JNum
  | _, .negZero => .fin 1
  | b, .fin e =>
      if e = 0 then .fin 1
      else
        match b with
        | .nan => .nan
        | .posInf => if e > 0 then .posInf else .fin 0
        | .negInf =>
            if e > 0 then (if ratIsOddInt e then .negInf else .posInf)
            else (if ratIsOddInt e then .negZero else .fin 0)
        | .negZero =>
            if e > 0 then (if ratIsOddInt e then .negZero else .fin 0)
            else (if ratIsOddInt e then .negInf else .posInf)
        | .fin a =>
            if a = 0 then
              (if e > 0 then .fin 0 else .posInf)
            else if ratIsInt e then .fin (a ^ e.num)
            else if a < 0 then .nan
            else .nan
  | _, .nan => .nan
  | b, .posInf =>
      match b with
      | .nan => .nan
      | .posInf => .posInf
      | .negInf => .posInf
      | .negZero => .fin 0
      | .fin a =>
          if a = 1 ∨ a = -1 then .nan
          else if a < -1 ∨ 1 < a then .posInf
          else .fin 0
  | b, .negInf =>
      match b with
      | .nan => .nan
      | .posInf => .fin 0
      | .negInf => .fin 0
      | .negZero => .posInf
      | .fin a =>
          if a = 1 ∨ a = -1 then .nan
          else if a < -1 ∨ 1 < a then .fin 0
          else .posInf

/-- Strict equality `===` on JavaScript numbers: NaN is not equal to
itself and the two zeroes are equal. -/
def jnumStrictEq (a b : JNum) : Bool :=
  match a, b with
  | .nan, _ => false
  | _, .nan => false
  | .posInf, .posInf => true
  | .negInf, .negInf => true
  | .negZero, .negZero => true
  | .negZero, .fin q => q == 0
  | .fin q, .negZero => q == 0
  | .fin a, .fin b => a == b
  | _, _ => false

/-- JavaScript `<` on numbers: false whenever either side is NaN, the two
zeroes compare equal. -/
def jnumLt (a b : JNum) : Bool :=
  match a, b with
  | .nan, _ => false
  | _, .nan => false
  | .negInf, .negInf => false
  | .negInf, _ => true
  | _, .negInf => false
  | .posInf, _ => false
  | _, .posInf => true
  | .negZero, .negZero => false
  | .negZero, .fin q => 0 < q
  | .fin q, .negZero => q < 0
  | .fin a, .fin b => a < b

/-- JavaScript `<=` on numbers. -/
def jnumLe (a b : JNum) : Bool :=
  match a, b with
  | .nan, _ => false
  | _, .nan => false
  | _, _ => jnumLt a b || jnumStrictEq a b

/-- Model of a `FormulaError` value as it flows through evaluation: the
error code (the `_error` field) and the optional detail message. -/
structure FErr where
  code : String
  msg : Option String
deriving DecidableEq

/-- The `FormulaError.VALUE` singleton, as a value. -/
def FormulaError.VALUE : FErr := ⟨"#VALUE!", none⟩

/-- The `FormulaError.NUM` singleton, as a value. -/
def FormulaError.NUM : FErr := ⟨"#NUM!", none⟩

/-- The `FormulaError.DIV0` singleton, as a value. -/
def FormulaError.DIV0 : FErr := ⟨"#DIV/0!", none⟩

/-- The `FormulaError.NULL` singleton, as a value. -/
def FormulaError.NULL : FErr := ⟨"#NULL!", none⟩

/-- The `FormulaError.NAME` singleton, as a value. -/
def FormulaError.NAME : FErr := ⟨"#NAME?", none⟩

/-- The `FormulaError.REF` singleton, as a value. -/
def FormulaError.REF : FErr := ⟨"#REF!", none⟩

/-- The `FormulaError.NA` singleton, as a value. -/
def FormulaError.NA : FErr := ⟨"#N/A", none⟩

/-- `FormulaError.ERROR(msg)`: the general parser or host failure error. -/
def FormulaError.ERROR (msg : String) : FErr := ⟨"#ERROR!", some msg⟩

/-- `FormulaError.NOT_IMPLEMENTED(functionName)`. -/
def FormulaError.NOT_IMPLEMENTED (functionName : String) : FErr :=
  ⟨"#NAME?", some ("Function " ++ functionName ++ " is not implemented.")⟩

/-- Exceptional outcomes of the embedded JavaScript code: a thrown
FormulaError, a thrown plain Error with a message, or a TypeError raised
by a member access on null or undefined. -/
inductive JSErr where
  | ferr : FErr → JSErr
  | jsError : String → JSErr
  | typeError : JSErr
deriving DecidableEq

/-- A row or column coordinate stored in a reference object.  The source
stores a number, `null` (used by whole-row and whole-column *range*
references) or `undefined` (used by whole-row and whole-column
*cell-shaped* references); the three behave differently under the
JavaScript comparison operators. -/
inductive JCoord where
  | num : Int → JCoord
  | null : JCoord
  | undefined : JCoord
deriving DecidableEq

/-- JavaScript ToNumber of a coordinate: `null` coerces to 0, `undefined`
to NaN (returned as `none`). -/
def JCoord.toNumber : JCoord → Option Int
  | .num n => some n
  | .null => some 0
  | .undefined => none

/-- JavaScript `a <= b` on coordinates: NaN operands make it false. -/
def jcoordLe (a b : JCoord) : Bool :=
  match a.toNumber, b.toNumber with
  | some x, some y => x ≤ y
  | _, _ => false

/-- JavaScript `a >= b` on coordinates. -/
def jcoordGe (a b : JCoord) : Bool := jcoordLe b a

/-- JavaScript strict equality `===` on coordinates. -/
def jcoordStrictEq (a b : JCoord) : Bool :=
  match a, b with
  | .num x, .num y => x == y
  | .null, .null => true
  | .undefined, .undefined => true
  | _, _ => false

/-- JavaScript loose inequality `x != null`, true exactly when the
coordinate is an actual number. -/
def JCoord.isNotNullish : JCoord → Bool
  | .num _ => true
  | _ => false

/-- A cell-shaped reference object: `{sheet?, address?, row, col}`.  A
whole row or whole column produced by `parseRow`/`parseCol` is
cell-shaped with the missing coordinate `undefined`. -/
structure CellShaped where
  sheet : Option String
  address : Option String
  row : JCoord
  col : JCoord
deriving DecidableEq

/-- A range-shaped reference object:
`{sheet?, from: {row, col}, to: {row, col}}` with the `from`/`to` pairs
flattened into four fields. -/
structure RangeShaped where
  sheet : Option String
  fromRow : JCoord
  fromCol : JCoord
  toRow : JCoord
  toCol : JCoord
deriving DecidableEq

/-- The inner `ref` object of a reference value: either cell-shaped or
range-shaped (distinguished in the source by the presence of `.from`). -/
inductive RefShape where
  | cell : CellShaped → RefShape
  | range : RangeShaped → RefShape
deriving DecidableEq

/-- A run-time JavaScript value of the evaluator: numbers, strings,
booleans, FormulaError objects, (nested) arrays, reference values
(objects with a `ref` field), union collections, objects of the form
`{value, ref}` produced by the test-mode probe, plus null and undefined.
A Collection carries its `data` list; its parallel `refs` list is not
inspected by any embedded function and is omitted. -/
inductive JSValue where
  | num : JNum → JSValue
  | str : String → JSValue
  | boolean : Bool → JSValue
  | ferr : FErr → JSValue
  | arr : List JSValue → JSValue
  | refv : RefShape → JSValue
  | collection : List JSValue → JSValue
  | objWithRef : JSValue → RefShape → JSValue
  | nullV : JSValue
  | undefined : JSValue

/-- JavaScript `typeof`. -/
def typeofStr : JSValue → String
  | .num _ => "number"
  | .str _ => "string"
  | .boolean _ => "boolean"
  | .undefined => "undefined"
  | _ => "object"

/-- `obj instanceof FormulaError`. -/
def isFormulaError : JSValue → Bool
  | .ferr _ => true
  | _ => false

/-- JavaScript loose equality against null (`x == null`), true for both
null and undefined. -/
def jsLooseNull : JSValue → Bool
  | .nullV => true
  | .undefined => true
  | _ => false

/-- The `ref` field of a value, when present (reference values and
`{value, ref}` objects). -/
def refOf : JSValue → Option RefShape
  | .refv r => some r
  | .objWithRef _ r => some r
  | _ => none

/-- Decimal digit test. -/
def isDigit09 (c : Char) : Bool := decide ('0' ≤ c ∧ c ≤ '9')

/-- Nonzero decimal digit test (first digit of a row number). -/
def isDigit19 (c : Char) : Bool := decide ('1' ≤ c ∧ c ≤ '9')

/-- ASCII letter test, both cases. -/
def isLetterAZ (c : Char) : Bool :=
  decide (('A' ≤ c ∧ c ≤ 'Z') ∨ ('a' ≤ c ∧ c ≤ 'z'))

/-- Numeric value of a decimal digit character. -/
def digitVal (c : Char) : Nat := c.toNat - 48

/-- Value of a list of decimal digit characters. -/
def digitsToNat (cs : List Char) : Nat :=
  cs.foldl (fun acc c => acc * 10 + digitVal c) 0

/-- JavaScript whitespace characters trimmed by ToNumber. -/
def isJsWhitespace (c : Char) : Bool :=
  c == ' ' || c == '\t' || c == '\n' || c == '\r'

/-- Exponent suffix of a decimal literal: empty, or `e`/`E`, an optional
sign and at least one digit, consuming the whole remainder. -/
def parseExpPart (base : ℚ) (cs : List Char) : Option ℚ :=
  match cs with
  | [] => some base
  | e :: rest =>
      if e == 'e' || e == 'E' then
        let p : Int × List Char :=
          match rest with
          | '+' :: r => (1, r)
          | '-' :: r => (-1, r)
          | r => (1, r)
        if p.2.isEmpty || !(p.2.all isDigit09) then none
        else some (base * (10 : ℚ) ^ (p.1 * (digitsToNat p.2 : Int)))
      else none

/-- Unsigned decimal literal `digits [. digits] [exponent]`, requiring at
least one digit around the point and full consumption of the input. -/
def parseUnsignedDecimal (cs : List Char) : Option ℚ :=
  let intPart := cs.takeWhile isDigit09
  let rest := cs.drop intPart.length
  match rest with
  | '.' :: rest2 =>
      let fracPart := rest2.takeWhile isDigit09
      let rest3 := rest2.drop fracPart.length
      if intPart.isEmpty && fracPart.isEmpty then none
      else
        parseExpPart
          ((digitsToNat intPart : ℚ) +
            (digitsToNat fracPart : ℚ) / (10 : ℚ) ^ fracPart.length) rest3
  | _ =>
      if intPart.isEmpty then none
      else parseExpPart (digitsToNat intPart : ℚ) rest

/-- Model of the JavaScript `Number(string)` conversion on the decimal
fragment the formula engine feeds it: trimmed whitespace, an optional
sign, a decimal literal with optional exponent, or the Infinity
literals.  Hexadecimal, octal and binary literals are not modelled; no
theorem below depends on them. -/
def jsStringToNumber (s : String) : JNum :=
  let cs := ((s.toList.dropWhile isJsWhitespace).reverse.dropWhile isJsWhitespace).reverse
  match cs with
  | [] => .fin 0
  | _ =>
      let p : Bool × List Char :=
        match cs with
        | '+' :: r => (false, r)
        | '-' :: r => (true, r)
        | r => (false, r)
      if p.2 = ['I', 'n', 'f', 'i', 'n', 'i', 't', 'y'] then
        (if p.1 then .negInf else .posInf)
      else
        match parseUnsignedDecimal p.2 with
        | none => .nan
        | some q =>
            if p.1 then (if q = 0 then .negZero else .fin (-q)) else .fin q

/-- Least power of ten divisible by the given denominator, when the
denominator has only the prime factors 2 and 5 (the terminating-decimal
case). -/
def decimalPow (d : Nat) : Option Nat :=
  (List.range 110).find? (fun k => (10 : Nat) ^ k % d == 0)

/-- Decimal rendering of a rational.  Terminating decimals are rendered
exactly as JavaScript renders the corresponding double; a non-terminating
decimal (which a double never produces exactly) falls back to a fraction
rendering.  No theorem below depends on this rendering. -/
def ratToDecimalString (q : ℚ) : String :=
  let sgnStr := if q < 0 then "-" else ""
  match decimalPow q.den with
  | some k =>
      let m := q.num.natAbs * 10 ^ k / q.den
      if k = 0 then sgnStr ++ toString m
      else
        let ds := (toString m).toList
        let ds := if ds.length ≤ k then List.replicate (k + 1 - ds.length) '0' ++ ds else ds
        let split := ds.length - k
        sgnStr ++ String.mk (ds.take split) ++ "." ++ String.mk (ds.drop split)
  | none => sgnStr ++ toString q.num.natAbs ++ "/" ++ toString q.den

/-- JavaScript number-to-string conversion. -/
def jnumToString : JNum → String
  | .nan => "NaN"
  | .posInf => "Infinity"
  | .negInf => "-Infinity"
  | .negZero => "0"
  | .fin q => ratToDecimalString q

mutual

/-- JavaScript ToString.  Arrays join their elements with commas (null
and undefined elements render empty); other objects render as
`[object Object]` except FormulaError, whose toString override returns
its error code. -/
def jsToString : JSValue → String
  | .num n => jnumToString n
  | .str s => s
  | .boolean b => if b then "true" else "false"
  | .ferr e => e.code
  | .arr l => jsArrJoin l
  | .refv _ => "[object Object]"
  | .collection _ => "[object Object]"
  | .objWithRef _ _ => "[object Object]"
  | .nullV => "null"
  | .undefined => "undefined"

/-- Comma join used by the JavaScript array toString. -/
def jsArrJoin : List JSValue → String
  | [] => ""
  | [v] =>
      (match v with
       | .nullV => ""
       | .undefined => ""
       | w => jsToString w)
  | v :: rest =>
      (match v with
       | .nullV => ""
       | .undefined => ""
       | w => jsToString w) ++ "," ++ jsArrJoin rest

end

/-- JavaScript ToNumber on arbitrary values: objects go through their
string form. -/
def jsToNumber : JSValue → JNum
  | .num n => n
  | .boolean b => .fin (if b then 1 else 0)
  | .str s => jsStringToNumber s
  | .nullV => .fin 0
  | .undefined => .nan
  | v => jsStringToNumber (jsToString v)

/-- JavaScript ToPrimitive as used by the `+` operator: objects become
their string form, primitives are unchanged. -/
def jsToPrimitive (v : JSValue) : JSValue :=
  match v with
  | .ferr _ => .str (jsToString v)
  | .arr _ => .str (jsToString v)
  | .refv _ => .str (jsToString v)
  | .collection _ => .str (jsToString v)
  | .objWithRef _ _ => .str (jsToString v)
  | x => x

/-- Whether a value is a string. -/
def JSValue.isStr : JSValue → Bool
  | .str _ => true
  | _ => false

/-- The JavaScript binary `+` operator: string concatenation when either
primitive is a string, numeric addition otherwise. -/
def jsAddOp (a b : JSValue) : JSValue :=
  let pa := jsToPrimitive a
  let pb := jsToPrimitive b
  if pa.isStr || pb.isStr then .str (jsToString pa ++ jsToString pb)
  else .num (jadd (jsToNumber pa) (jsToNumber pb))

/-- JavaScript `v[0]`: throws a TypeError on null and undefined, indexes
arrays and strings, yields undefined otherwise. -/
def jsIndex0 : JSValue → Except JSErr JSValue
  | .nullV => .error .typeError
  | .undefined => .error .typeError
  | .arr l => .ok (match l with | [] => .undefined | x :: _ => x)
  | .str s => .ok (if s.isEmpty then .undefined else .str (String.singleton s.front))
  | _ => .ok .undefined

/-- JavaScript `v[0][0]`. -/
def jsIndex00 (v : JSValue) : Except JSErr JSValue := do
  jsIndex0 (← jsIndex0 v)

/-- JavaScript `v.length`: throws on null and undefined; arrays and
strings have a numeric length, other values yield undefined (`none`). -/
def jsLength : JSValue → Except JSErr (Option Int)
  | .nullV => .error .typeError
  | .undefined => .error .typeError
  | .arr l => .ok (some (l.length : Int))
  | .str s => .ok (some (s.length : Int))
  | _ => .ok none

/-- A FormulaError instance for the identity model of
`src/formulas/error.ts`: the object identity is tracked with a numeric
object id. -/
structure ErrObj where
  oid : Nat
  errorCode : String
  msg : Option String
  hasDetails : Bool
deriving DecidableEq

/-- The process-lived state of the FormulaError class: the static
`errorMap` from code to registered instance, plus an allocation counter
standing for object identity. -/
structure ErrHeap where
  errorMap : List (String × ErrObj)
  nextId : Nat
deriving DecidableEq

/-- The FormulaError constructor.  When called with no message and no
details it returns the already-registered instance for the code if one
exists, and otherwise registers the freshly allocated instance. -/
def FormulaError.construct (error : String) (msg : Option String)
    (hasDetails : Bool) (h : ErrHeap) : ErrObj × ErrHeap :=
  if msg = none ∧ hasDetails = false then
    match h.errorMap.find? (fun p => p.1 == error) with
    | some p => (p.2, h)
    | none =>
        let obj : ErrObj := ⟨h.nextId, error, none, false⟩
        (obj, ⟨h.errorMap ++ [(error, obj)], h.nextId + 1⟩)
  else
    (⟨h.nextId, error, msg, hasDetails⟩, ⟨h.errorMap, h.nextId + 1⟩)

/-- The codes of the seven static standard errors, in the order their
static initializers run in the source (DIV0, NA, NAME, NULL, NUM, REF,
VALUE). -/
def standardErrorCodes : List String :=
  ["#DIV/0!", "#N/A", "#NAME?", "#NULL!", "#NUM!", "#REF!", "#VALUE!"]

/-- The heap after the seven static initializers have run. -/
def staticInitHeap : ErrHeap :=
  standardErrorCodes.foldl (fun h c => (FormulaError.construct c none false h).2) ⟨[], 0⟩

/-- The static instance for a standard code (e.g. `FormulaError.DIV0`):
constructing the code against the initialized heap returns the
registered object. -/
def staticErrObj (code : String) : ErrObj :=
  (FormulaError.construct code none false staticInitHeap).1

/-- The `FormulaError.equals` method: code comparison only.  The
`instanceof FormulaError` guard of the source is discharged by the type
of the argument. -/
def ErrObj.equals (self err : ErrObj) : Bool :=
  err.errorCode == self.errorCode

/-- ASCII uppercase of one character (`String.prototype.toUpperCase` on
the letters the column grammar admits). -/
def charUpper (c : Char) : Char :=
  if decide ('a' ≤ c ∧ c ≤ 'z') then Char.ofNat (c.toNat - 32) else c

/-- `Address.columnNameToNumber` from `src/formulas/helpers.ts`:
uppercase, then positional base-26 with `A = 1`.  The `isNaN(code)`
guard of the source never fires for an in-range index and is dropped. -/
def Address.columnNameToNumber (columnName : String) : Int :=
  let cs := columnName.toList.map charUpper
  let len := cs.length
  (List.range len).foldl
    (fun acc i =>
      acc + (((cs.getD i ' ').toNat : Int) - 64) * (26 : Int) ^ (len - i - 1))
    0

/-- Digits part of the cell-address pattern: one digit 1-9 followed by
any digits. -/
def matchDigitsPart (cs : List Char) : Option (List Char) :=
  match cs with
  | c :: rest => if isDigit19 c then some (c :: rest.takeWhile isDigit09) else none
  | [] => none

/-- Letters-then-digits part of the cell-address pattern
`[A-Za-z]{1,3}[$]?[1-9][0-9]*`, with the greedy backtracking of the
regex engine on the letter count.  Returns (letters, digits, matched
text). -/
def tryCellLetters : Nat → List Char → Option (String × String × String)
  | 0, _ => none
  | Nat.succ k, cs =>
      let ls := (cs.takeWhile isLetterAZ).take (k + 1)
      if ls.length = k + 1 then
        let rest := cs.drop (k + 1)
        let p : String × List Char :=
          match rest with
          | '$' :: r => ("$", r)
          | r => ("", r)
        match matchDigitsPart p.2 with
        | some ds =>
            some (String.mk ls, String.mk ds, String.mk ls ++ p.1 ++ String.mk ds)
        | none => tryCellLetters k cs
      else tryCellLetters k cs

/-- One attempt of the cell-address regex at the current position,
including the optional leading dollar. -/
def matchCellAt (cs : List Char) : Option (String × String × String) :=
  match cs with
  | '$' :: rest =>
      (match tryCellLetters 3 rest with
       | some r => some (r.1, r.2.1, "$" ++ r.2.2)
       | none => tryCellLetters 3 cs)
  | _ => tryCellLetters 3 cs

/-- Unanchored first match of the cell-address regex
`([$]?)([A-Za-z]{1,3})([$]?)([1-9][0-9]*)`. -/
def regexCellSearch : List Char → Option (String × String × String)
  | [] => none
  | c :: rest =>
      match matchCellAt (c :: rest) with
      | some r => some r
      | none => regexCellSearch rest

/-- `Utils.parseCellAddress` from `src/grammar/utils.ts`: match the
address pattern and build the cell reference with the base-26 column
number and the numeric row. -/
def Utils.parseCellAddress (cellAddress : String) : Except JSErr JSValue :=
  match regexCellSearch cellAddress.toList with
  | none => .error (.jsError ("Invalid cell address: " ++ cellAddress))
  | some r =>
      .ok (.refv (.cell
        { sheet := none
          address := some r.2.2
          col := .num (Address.columnNameToNumber r.1)
          row := .num ((digitsToNat r.2.1.toList : Nat) : Int) }))

/-- `MAX_ROW` from `src/grammar/utils.ts`. -/
def MAX_ROW : Int := 1048576

/-- `MAX_COLUMN` from `src/grammar/utils.ts`. -/
def MAX_COLUMN : Int := 16384

/-- The scalar branches of `FormulaHelpers.acceptNumber` from
`src/formulas/helpers.ts`: a FormulaError is returned as-is, numbers are
accepted, booleans map to 1/0 or throw `#VALUE!` when disabled, strings
must be non-empty and parse to a non-NaN number, and anything else
throws a plain Error. -/
def acceptNumberScalar (obj : JSValue) (allowBoolean : Bool) : Except JSErr JSValue :=
  match obj with
  | .ferr e => .ok (.ferr e)
  | .num n => .ok (.num n)
  | .boolean b =>
      if allowBoolean then .ok (.num (.fin (if b then 1 else 0)))
      else .error (.ferr FormulaError.VALUE)
  | .str s =>
      if s.length = 0 then .error (.ferr FormulaError.VALUE)
      else
        let number := jsStringToNumber s
        if number.isNaNb then .error (.ferr FormulaError.VALUE)
        else .ok (.num number)
  | _ => .error (.jsError "Unknown type in FormulaHelpers.acceptNumber")

/-- The recursive call `this.acceptNumber(obj[0][0])` of the array
branches (with the default arguments `isArray = true`,
`allowBoolean = true`), evaluated on an array value.  The JavaScript
index expression `obj[0][0]` throws a TypeError when it indexes null or
undefined and yields undefined out of bounds. -/
def acceptNumber00 : JSValue → Except JSErr JSValue
  | .arr [] => .error .typeError
  | .arr (.arr [] :: _) => acceptNumberScalar .undefined true
  | .arr (.arr (x :: _) :: _) => acceptNumber00 x
  | .arr (.str s :: _) =>
      if s.isEmpty then acceptNumberScalar .undefined true
      else acceptNumberScalar (.str (String.singleton s.front)) true
  | .arr (.nullV :: _) => .error .typeError
  | .arr (.undefined :: _) => .error .typeError
  | .arr (_ :: _) => acceptNumberScalar .undefined true
  | v => acceptNumberScalar v true

/-- `FormulaHelpers.acceptNumber(obj, isArray, allowBoolean)`.  For an
array operand with `isArray = false` the source only requires the first
row to have length 1 (`obj[0].length === 1`, a single-column check)
before taking `obj[0][0]`; with `isArray = true` it takes `obj[0][0]`
unconditionally. -/
def acceptNumber (obj : JSValue) (isArray allowBoolean : Bool) : Except JSErr JSValue :=
  match obj with
  | .arr l =>
      if isArray then acceptNumber00 (.arr l)
      else
        match jsLength (match l with | [] => .undefined | r :: _ => r) with
        | .error e => .error e
        | .ok len =>
            if len = some 1 then acceptNumber00 (.arr l)
            else .error (.ferr FormulaError.VALUE)
  | v => acceptNumberScalar v allowBoolean

/-- The operator category lists from `src/formulas/operators.ts`. -/
def Operators.compareOp : List String := ["<", ">", "=", "<>", "<=", ">="]

/-- The concat operator list. -/
def Operators.concatOp : List String := ["&"]

/-- The math operator list. -/
def Operators.mathOp : List String := ["+", "-", "*", "/", "^"]

/-- The `type2Number` comparison ranking of `src/formulas/operators.ts`:
boolean 3, string 2, number 1, anything else undefined. -/
def type2Number (t : String) : Option Int :=
  if t = "boolean" then some 3
  else if t = "string" then some 2
  else if t = "number" then some 1
  else none

/-- Strict equality `===` between two values of the same `typeof` class.
Object identity is not tracked by the value model; two object operands
compare unequal, which no theorem below depends on. -/
def jsStrictEq : JSValue → JSValue → Bool
  | .num a, .num b => jnumStrictEq a b
  | .str a, .str b => a == b
  | .boolean a, .boolean b => a == b
  | .nullV, .nullV => true
  | .undefined, .undefined => true
  | _, _ => false

/-- JavaScript relational `<` between two values of the same `typeof`
class: numeric for numbers and booleans, lexicographic for strings, and
via the string form for objects; false when undefined is involved. -/
def jsSameTypeLt : JSValue → JSValue → Bool
  | .num a, .num b => jnumLt a b
  | .str a, .str b => decide (a < b)
  | .boolean a, .boolean b => !a && b
  | .undefined, _ => false
  | _, .undefined => false
  | a, b => decide (jsToString a < jsToString b)

/-- JavaScript relational `<=` between same-type values. -/
def jsSameTypeLe (a b : JSValue) : Bool :=
  match a, b with
  | .num x, .num y => jnumLe x y
  | .str x, .str y => decide (x ≤ y)
  | .boolean x, .boolean y => !x || y
  | .undefined, _ => false
  | _, .undefined => false
  | _, _ => decide (jsToString a ≤ jsToString b)

/-- `Infix.compareOp` from `src/formulas/operators.ts`: null operands
default to 0, array operands collapse to their `[0][0]`, same-type
operands compare by value, cross-type operands compare by the
`type2Number` ranking with `=` always false and `<>` always true. -/
def Ops.compareOp (value1v : JSValue) (op : String) (value2v : JSValue)
    (isArray1 isArray2 : Bool) : Except JSErr JSValue := do
  let value1 := if jsLooseNull value1v then JSValue.num (.fin 0) else value1v
  let value2 := if jsLooseNull value2v then JSValue.num (.fin 0) else value2v
  let value1 ← if isArray1 then jsIndex00 value1 else pure value1
  let value2 ← if isArray2 then jsIndex00 value2 else pure value2
  if typeofStr value1 = typeofStr value2 then
    if op = "=" then .ok (.boolean (jsStrictEq value1 value2))
    else if op = ">" then .ok (.boolean (jsSameTypeLt value2 value1))
    else if op = "<" then .ok (.boolean (jsSameTypeLt value1 value2))
    else if op = "<>" then .ok (.boolean (!jsStrictEq value1 value2))
    else if op = "<=" then .ok (.boolean (jsSameTypeLe value1 value2))
    else if op = ">=" then .ok (.boolean (jsSameTypeLe value2 value1))
    else .error (.jsError "Infix.compareOp: Should not reach here.")
  else
    let t1 := type2Number (typeofStr value1)
    let t2 := type2Number (typeofStr value2)
    let cmp : (Int → Int → Bool) → Bool := fun f =>
      match t1, t2 with
      | some x, some y => f x y
      | _, _ => false
    if op = "=" then .ok (.boolean false)
    else if op = ">" then .ok (.boolean (cmp (fun x y => y < x)))
    else if op = "<" then .ok (.boolean (cmp (fun x y => x < y)))
    else if op = "<>" then .ok (.boolean true)
    else if op = "<=" then .ok (.boolean (cmp (fun x y => x ≤ y)))
    else if op = ">=" then .ok (.boolean (cmp (fun x y => y ≤ x)))
    else .error (.jsError "Infix.compareOp: Should not reach here.")

/-- `Infix.concatOp` from `src/formulas/operators.ts`: null operands
default to the empty string, array operands collapse to `[0][0]`,
booleans serialize as TRUE/FALSE, and the operands are concatenated as
strings. -/
def Ops.concatOp (value1v : JSValue) (op : String) (value2v : JSValue)
    (isArray1 isArray2 : Bool) : Except JSErr JSValue := do
  let value1 := if jsLooseNull value1v then JSValue.str "" else value1v
  let value2 := if jsLooseNull value2v then JSValue.str "" else value2v
  let value1 ← if isArray1 then jsIndex00 value1 else pure value1
  let value2 ← if isArray2 then jsIndex00 value2 else pure value2
  let value1 := match value1 with
    | .boolean b => JSValue.str (if b then "TRUE" else "FALSE")
    | v => v
  let value2 := match value2 with
    | .boolean b => JSValue.str (if b then "TRUE" else "FALSE")
    | v => v
  .ok (.str (jsToString value1 ++ jsToString value2))

/-- The arithmetic switch at the end of `Infix.mathOp`, applied to the
two operands after `acceptNumber` coercion (each is a number, or a
FormulaError object that was passed through by `acceptNumber` and is
treated by the JavaScript operators through its string form). -/
def mathCore (n1 : JSValue) (op : String) (n2 : JSValue) : Except JSErr JSValue :=
  if op = "+" then .ok (jsAddOp n1 n2)
  else if op = "-" then .ok (.num (jsub (jsToNumber n1) (jsToNumber n2)))
  else if op = "*" then .ok (.num (jmul (jsToNumber n1) (jsToNumber n2)))
  else if op = "/" then
    if (match n2 with | .num m => m.isZero | _ => false) then
      .ok (.ferr FormulaError.DIV0)
    else .ok (.num (jdiv (jsToNumber n1) (jsToNumber n2)))
  else if op = "^" then .ok (.num (jpow (jsToNumber n1) (jsToNumber n2)))
  else .error (.jsError "Infix.mathOp: Should not reach here.")

/-- `Infix.mathOp` from `src/formulas/operators.ts`: null operands
default to 0, both operands are coerced with `acceptNumber` (a thrown
FormulaError is caught and returned as the result), `x/0` answers
`#DIV/0!`, and otherwise the JavaScript arithmetic runs. -/
def Ops.mathOp (value1v : JSValue) (op : String) (value2v : JSValue)
    (isArray1 isArray2 : Bool) : Except JSErr JSValue :=
  let value1 := if jsLooseNull value1v then JSValue.num (.fin 0) else value1v
  let value2 := if jsLooseNull value2v then JSValue.num (.fin 0) else value2v
  match acceptNumber value1 isArray1 true with
  | .error (.ferr e) => .ok (.ferr e)
  | .error err => .error err
  | .ok n1 =>
      match acceptNumber value2 isArray2 true with
      | .error (.ferr e) => .ok (.ferr e)
      | .error err => .error err
      | .ok n2 => mathCore n1 op n2

/-- The result of `Utils.extractRefValue`: the (possibly dereferenced)
value together with the flag recording whether the original operand was
an array. -/
structure ExtractedValue where
  val : JSValue
  isArray : Bool

/-- The private `Utils._applyInfix` of `src/grammar/utils.ts`: an error
operand short-circuits (left first), otherwise the operator dispatches
to the comparison, concatenation or math core by category. -/
def Utils.applyBinaryOp (res1 : ExtractedValue) (op : String)
    (res2 : ExtractedValue) : Except JSErr JSValue :=
  if isFormulaError res1.val then .ok res1.val
  else if isFormulaError res2.val then .ok res2.val
  else if Operators.compareOp.contains op then
    Ops.compareOp res1.val op res2.val res1.isArray res2.isArray
  else if Operators.concatOp.contains op then
    Ops.concatOp res1.val op res2.val res1.isArray res2.isArray
  else if Operators.mathOp.contains op then
    Ops.mathOp res1.val op res2.val res1.isArray res2.isArray
  else .error (.jsError "Unrecognized infix operator")

/-- The `position` field of the evaluator (`sheet`, `row`, `col`). -/
structure PositionRec where
  sheet : Option String
  row : JCoord
  col : JCoord
deriving DecidableEq

/-- The host side of a `FormulaParser` instance: the `onCell` and
`onRange` callbacks and the per-evaluation `position`. -/
structure EvalHost where
  onCell : CellShaped → JSValue
  onRange : RangeShaped → List (List JSValue)
  position : Option PositionRec

/-- `FormulaParser.getCell`: fill in the position sheet when the
reference has none, then ask the host. -/
def FormulaParser.getCell (host : EvalHost) (ref : CellShaped) : JSValue :=
  match host.position with
  | some pos =>
      if ref.sheet = none then host.onCell { ref with sheet := pos.sheet }
      else host.onCell ref
  | none => host.onCell ref

/-- `FormulaParser.getRange`: fill in the position sheet when the
reference has none, then ask the host.  The host answer is an `any[][]`
and becomes a nested array value. -/
def FormulaParser.getRange (host : EvalHost) (ref : RangeShaped) : JSValue :=
  let rows :=
    match host.position with
    | some pos =>
        if ref.sheet = none then host.onRange { ref with sheet := pos.sheet }
        else host.onRange ref
    | none => host.onRange ref
  .arr (rows.map .arr)

/-- `FormulaParser.retrieveRef`: dereference range and cell references
(detected by the presence of `ref` and `ref.from`), pass every other
value through. -/
def FormulaParser.retrieveRef (host : EvalHost) (valueOrRef : JSValue) : JSValue :=
  match refOf valueOrRef with
  | some (.range r) => FormulaParser.getRange host r
  | some (.cell c) => FormulaParser.getCell host c
  | none => valueOrRef

/-- `Utils.extractRefValue` from `src/grammar/utils.ts`: record whether
the operand is an array, dereference it when it carries a `ref`. -/
def Utils.extractRefValue (host : EvalHost) (obj : JSValue) : ExtractedValue :=
  let isArray := match obj with | .arr _ => true | _ => false
  match refOf obj with
  | some _ => { val := FormulaParser.retrieveRef host obj, isArray := isArray }
  | none => { val := obj, isArray := isArray }

/-- JavaScript truthiness of a coordinate (`ref.row` in the single-cell
test of `checkFormulaResult`): a nonzero number. -/
def JCoord.truthy : JCoord → Bool
  | .num n => n != 0
  | _ => false

/-- The trailing union check of the `allowReturnArray = true` branch of
`checkFormulaResult`: a non-array non-null object result becomes
`#VALUE!`. -/
def strayObjectCheck (result : JSValue) : JSValue :=
  match result with
  | .ferr _ => .ferr FormulaError.VALUE
  | .refv _ => .ferr FormulaError.VALUE
  | .collection _ => .ferr FormulaError.VALUE
  | .objWithRef _ _ => .ferr FormulaError.VALUE
  | .nullV => .nullV
  | v => v

/-- `FormulaParser.checkFormulaResult` from `src/grammar/hooks.ts`.
Numbers: NaN answers `#VALUE!`, an infinity `#NUM!`, and `result += 0`
collapses negative zero.  FormulaError objects pass through.  With
`allowReturnArray` any reference is dereferenced and a remaining
non-array non-null object answers `#VALUE!`; without it a single-cell
reference is dereferenced, a range whose columns coincide dereferences
its top cell, an array collapses to `[0][0]`, and any other object
answers `#VALUE!`. -/
def FormulaParser.checkFormulaResult (host : EvalHost) (result : JSValue)
    (allowReturnArray : Bool) : Except JSErr JSValue :=
  match typeofStr result, result with
  | "number", .num n =>
      if n.isNaNb then .ok (.ferr FormulaError.VALUE)
      else if !n.isFiniteb then .ok (.ferr FormulaError.NUM)
      else .ok (.num (jadd n (.fin 0)))
  | "object", _ =>
      match result with
      | .ferr e => .ok (.ferr e)
      | .nullV => .error .typeError
      | _ =>
          if allowReturnArray then
            let result :=
              match refOf result with
              | some _ => FormulaParser.retrieveRef host result
              | none => result
            .ok (strayObjectCheck result)
          else
            match refOf result with
            | some (.cell c) =>
                if c.row.truthy then
                  .ok (FormulaParser.getCell host c)
                else .ok (.ferr FormulaError.VALUE)
            | some (.range r) =>
                if jcoordStrictEq r.fromCol r.toCol then
                  .ok (FormulaParser.getCell host
                    { sheet := none, address := none, row := r.fromRow, col := r.fromCol })
                else .ok (.ferr FormulaError.VALUE)
            | none =>
                match result with
                | .arr l => jsIndex00 (.arr l)
                | _ => .ok (.ferr FormulaError.VALUE)
  | _, _ => .ok result

/-- `FormulaHelpers.checkFunctionResult` from `src/formulas/helpers.ts`:
a NaN number becomes `#VALUE!`, an infinite number `#NUM!`, null or
undefined become `#NULL!`, everything else passes through. -/
def checkFunctionResult (result : JSValue) : JSValue :=
  match result with
  | .num n =>
      if n.isNaNb then .ferr FormulaError.VALUE
      else if !n.isFiniteb then .ferr FormulaError.NUM
      else result
  | .undefined => .ferr FormulaError.NULL
  | .nullV => .ferr FormulaError.NULL
  | _ => result

/-- A shaped argument handed to a built-in implementation: the
(dereferenced) value with the array flag, the `omitted` marker for holes
in the argument list, the preserved raw reference for the preserve-ref
family, and the reference-kind flags for everyone else. -/
structure ShapedArg where
  value : JSValue
  isArray : Bool
  omitted : Bool
  ref : Option RefShape
  isRangeRef : Option Bool
  isCellRef : Option Bool

/-- An argument as the called implementation sees it: raw (for the
no-data-retrieve context functions) or shaped. -/
inductive CallArg where
  | raw : Option JSValue → CallArg
  | shaped : ShapedArg → CallArg

/-- The observable behaviour of one invocation of a registered function:
a returned value, a thrown FormulaError, or another thrown exception. -/
inductive FnOutcome where
  | ret : JSValue → FnOutcome
  | throwFE : FErr → FnOutcome
  | throwJS : String → FnOutcome

/-- The function-call side of a `FormulaParser` instance: the merged
registry and the name sets wired up in the constructor (the full key
sets come from the bundled function modules), plus the test-mode flag
and the host. -/
structure ParserState where
  host : EvalHost
  functions : String → Option (List CallArg → FnOutcome)
  funsNullAs0 : List String
  funsNeedContextAndNoDataRetrieve : List String
  funsNeedContext : List String
  funsPreserveRef : List String
  isTest : Bool

/-- The name normalisation at the head of `_callFunction`: strip the
`_xlfn.` prefix and uppercase. -/
def canonicalName (name : String) : String :=
  let base := if name.toList.take 6 = "_xlfn.".toList then String.mk (name.toList.drop 6) else name
  String.mk (base.toList.map charUpper)

/-- Whether a value is a range reference (`H.isRangeRef`). -/
def isRangeRefB (v : JSValue) : Bool :=
  match refOf v with
  | some (.range _) => true
  | _ => false

/-- Whether a value is a cell reference (`H.isCellRef`). -/
def isCellRefB (v : JSValue) : Bool :=
  match refOf v with
  | some (.cell _) => true
  | _ => false

/-- The argument mapping of `_callFunction` for a (canonical) name:
no-data-retrieve functions receive the raw arguments; otherwise a null
argument becomes the omitted marker with the 0-or-empty default, the
preserve-ref family keeps the raw reference next to the value, and
everyone else gets the value plus the reference-kind flags. -/
def shapeArgs (st : ParserState) (name : String) (args : List (Option JSValue)) :
    List CallArg :=
  if st.funsNeedContextAndNoDataRetrieve.contains name then args.map .raw
  else
    let nullValue : JSValue :=
      if st.funsNullAs0.contains name then .num (.fin 0) else .str ""
    args.map (fun arg =>
      match arg with
      | none =>
          .shaped { value := nullValue, isArray := false, omitted := true,
                    ref := none, isRangeRef := none, isCellRef := none }
      | some a =>
          let res := Utils.extractRefValue st.host a
          if st.funsPreserveRef.contains name then
            .shaped { value := res.val, isArray := res.isArray, omitted := false,
                      ref := refOf a, isRangeRef := none, isCellRef := none }
          else
            .shaped { value := res.val, isArray := res.isArray, omitted := false,
                      ref := none, isRangeRef := some (isRangeRefB a),
                      isCellRef := some (isCellRefB a) })

/-- The `{value: 0, ref: {}}` object returned by the test-mode probe. -/
def testModeStub : JSValue :=
  .objWithRef (.num (.fin 0))
    (.cell { sheet := none, address := none, row := .undefined, col := .undefined })

/-- The private `FormulaParser._callFunction`: normalise the name, shape
the arguments, invoke the registered implementation (a thrown
FormulaError becomes the returned value, other exceptions propagate), and
handle the undefined-result and the unknown-name cases through the
test-mode probe or `#NAME?`. -/
def FormulaParser.callFunctionCore (st : ParserState) (name0 : String)
    (args : List (Option JSValue)) : Except JSErr JSValue :=
  let name := canonicalName name0
  let callArgs := shapeArgs st name args
  match st.functions name with
  | some impl =>
      match impl callArgs with
      | .throwFE e => .ok (.ferr e)
      | .throwJS m => .error (.jsError m)
      | .ret res =>
          match res with
          | .undefined =>
              if st.isTest then .ok testModeStub
              else .error (.ferr (FormulaError.NOT_IMPLEMENTED name))
          | r => .ok r
  | none =>
      if st.isTest then .ok testModeStub
      else .error (.ferr (FormulaError.NOT_IMPLEMENTED name))

/-- `FormulaParser.callFunction` in synchronous mode: run the core and
post-process the result with `checkFunctionResult`. -/
def FormulaParser.callFunction (st : ParserState) (name : String)
    (args : List (Option JSValue)) : Except JSErr JSValue :=
  match FormulaParser.callFunctionCore st name args with
  | .error e => .error e
  | .ok res => .ok (checkFunctionResult res)

/-- `FormulaParser.callFunctionAsync`: awaiting already-resolved
arguments and the result is the identity in this model, so the body
coincides with the synchronous path followed by `checkFunctionResult`. -/
def FormulaParser.callFunctionAsync (st : ParserState) (name : String)
    (args : List (Option JSValue)) : Except JSErr JSValue :=
  match FormulaParser.callFunctionCore st name args with
  | .error e => .error e
  | .ok res => .ok (checkFunctionResult res)

/-- Coordinate as seen by `Math.max`/`Math.min` in `applyIntersect`:
null coerces to 0.  An undefined range endpoint is never built by the
parser; it is also mapped to 0 here and no theorem depends on it. -/
def JCoord.toIntForMinMax : JCoord → Int
  | .num n => n
  | .null => 0
  | .undefined => 0

/-- The running bounding box of the shrink-intersection. -/
structure IBox where
  minRow : Int
  maxRow : Int
  minCol : Int
  maxCol : Int
deriving DecidableEq

/-- Bounding box of a range reference, ordering the two endpoints with
`Math.max`/`Math.min` as the source does. -/
def rangeBox (r : RangeShaped) : IBox :=
  { minRow := min r.fromRow.toIntForMinMax r.toRow.toIntForMinMax
    maxRow := max r.fromRow.toIntForMinMax r.toRow.toIntForMinMax
    minCol := min r.fromCol.toIntForMinMax r.toCol.toIntForMinMax
    maxCol := max r.fromCol.toIntForMinMax r.toCol.toIntForMinMax }

/-- One iteration of the `refs.forEach` loop of `Utils.applyIntersect`:
a FormulaError element is skipped, a non-reference throws, a whole
row/column cell-shaped reference throws, and otherwise the overlap test
against the running box may set the `#NULL!` flag before the box is
updated (the cell box for a cell, the componentwise overlap for a
range).  The sheet comparison is always against the first sheet. -/
def intersectStep (sheet : Option String) (st : IBox × Option FErr)
    (v : JSValue) : Except JSErr (IBox × Option FErr) :=
  match v with
  | .ferr _ => .ok st
  | _ =>
      match refOf v with
      | none => .error (.jsError "Expecting a reference")
      | some (.cell c) =>
          if c.row = .undefined ∨ c.col = .undefined then
            .error (.jsError "Cannot intersect the whole row or column.")
          else
            let r := c.row.toIntForMinMax
            let co := c.col.toIntForMinMax
            let err :=
              if r > st.1.maxRow ∨ r < st.1.minRow ∨ co > st.1.maxCol ∨
                  co < st.1.minCol ∨ sheet ≠ c.sheet then
                some FormulaError.NULL
              else st.2
            .ok ({ minRow := r, maxRow := r, minCol := co, maxCol := co }, err)
      | some (.range rg) =>
          let rb := rangeBox rg
          let err :=
            if rb.minRow > st.1.maxRow ∨ rb.maxRow < st.1.minRow ∨
                rb.minCol > st.1.maxCol ∨ rb.maxCol < st.1.minCol ∨
                sheet ≠ rg.sheet then
              some FormulaError.NULL
            else st.2
          .ok ({ minRow := max st.1.minRow rb.minRow
                 maxRow := min st.1.maxRow rb.maxRow
                 minCol := max st.1.minCol rb.minCol
                 maxCol := min st.1.maxCol rb.maxCol }, err)

/-- The `refs.forEach` loop of `Utils.applyIntersect`. -/
def intersectFold (sheet : Option String) :
    IBox × Option FErr → List JSValue → Except JSErr (IBox × Option FErr)
  | st, [] => .ok st
  | st, v :: rest => do intersectFold sheet (← intersectStep sheet st v) rest

/-- Initial box of `Utils.applyIntersect`: the 1x1 box of a full cell
(whole row/column throws), the ordered bounding box of a range. -/
def intersectInitBox : RefShape → Except JSErr IBox
  | .cell c =>
      if c.row = .undefined ∨ c.col = .undefined then
        .error (.jsError "Cannot intersect the whole row or column.")
      else
        .ok { minRow := c.row.toIntForMinMax, maxRow := c.row.toIntForMinMax
              minCol := c.col.toIntForMinMax, maxCol := c.col.toIntForMinMax }
  | .range rg => .ok (rangeBox rg)

/-- The sheet of a reference shape. -/
def RefShape.sheetOf : RefShape → Option String
  | .cell c => c.sheet
  | .range r => r.sheet

/-- The `if (!res.ref.sheet) delete res.ref.sheet` cleanup at the end of
`applyIntersect`: a missing or empty (falsy) sheet is removed. -/
def deleteFalsySheet : Option String → Option String
  | some s => if s = "" then none else some s
  | none => none

/-- `Utils.applyIntersect` from `src/grammar/utils.ts`.  An error first
element is returned; a non-reference first element throws; the first
box and sheet are taken from the first reference; the loop shrinks the
box; a set `#NULL!` flag wins; otherwise the box collapses to a cell
reference exactly when it is 1x1 and is a range reference otherwise
(with a falsy sheet deleted). -/
def Utils.applyIntersect (refs : List JSValue) : Except JSErr JSValue :=
  match refs with
  | [] => .error .typeError
  | first :: rest =>
      if isFormulaError first then .ok first
      else
        match refOf first with
        | none => .error (.jsError "Expecting a reference")
        | some shape =>
            let sheet := shape.sheetOf
            match intersectInitBox shape with
            | .error e => .error e
            | .ok box0 =>
                match intersectFold sheet (box0, none) rest with
                | .error e => .error e
                | .ok (_, some e) => .ok (.ferr e)
                | .ok (box, none) =>
                    let resSheet := deleteFalsySheet sheet
                    if box.maxRow = box.minRow ∧ box.maxCol = box.minCol then
                      .ok (.refv (.cell { sheet := resSheet, address := none
                                          row := .num box.maxRow, col := .num box.maxCol }))
                    else
                      .ok (.refv (.range { sheet := resSheet
                                           fromRow := .num box.minRow, fromCol := .num box.minCol
                                           toRow := .num box.maxRow, toCol := .num box.maxCol }))

/-- A lexing error as chevrotain reports it (location and message). -/
structure LexErrorRec where
  line : Nat
  column : Nat
  message : String

/-- The outcome of `SelectLexer.tokenize`: only the error list matters
to the control flow modelled here. -/
structure TokenizeResult where
  errors : List LexErrorRec

/-- Split a character list at newline characters. -/
def splitLinesChars : List Char → List (List Char)
  | [] => [[]]
  | '\n' :: rest => [] :: splitLinesChars rest
  | c :: rest =>
      match splitLinesChars rest with
      | [] => [[c]]
      | l :: ls => (c :: l) :: ls

/-- JavaScript `inputText.split` at newlines indexed at `line - 1`,
where an out-of-range index concatenates as the string `undefined`. -/
def lineAtJs (s : String) (line : Nat) : String :=
  ((splitLinesChars s.toList).map String.mk).getD (line - 1) "undefined"

/-- The caret-diagram message built by `lex` in `src/grammar/lexing.ts`
and by `Utils.formatChevrotainError` in `src/grammar/utils.ts`: the
offending source line, a caret under the offending column, and the
`Error at position line:column` header before the original message. -/
def caretMessage (inputText : String) (line column : Nat) (message : String) : String :=
  "\n" ++ lineAtJs inputText line ++ "\n"
    ++ String.mk (List.replicate (column - 1) ' ') ++ "^\n"
    ++ "Error at position " ++ toString line ++ ":" ++ toString column
    ++ "\n" ++ message

/-- `lex` from `src/grammar/lexing.ts`, given the tokenizer outcome: a
first lexing error is wrapped in the caret message and thrown as an
`#ERROR!` FormulaError. -/
def lex (inputText : String) (lexingResult : TokenizeResult) : Except JSErr Unit :=
  match lexingResult.errors with
  | [] => .ok ()
  | error :: _ =>
      .error (.ferr (FormulaError.ERROR
        (caretMessage inputText error.line error.column error.message)))

/-- A parser error as chevrotain records it: the distinction between
`NotAllInputParsedException` and the other recognition exceptions, the
start positions of the offending and the previous token, and the
message. -/
structure ChevErrRec where
  isNotAllInputParsed : Bool
  tokenLine : Nat
  tokenColumn : Nat
  prevTokenLine : Nat
  prevTokenColumn : Nat
  message : String

/-- `Utils.formatChevrotainError`: pick the location from the offending
token (NotAllInputParsed) or one past the previous token, build the
caret message, and return it wrapped as an `#ERROR!` FormulaError. -/
def Utils.formatChevrotainError (error : ChevErrRec) (inputText : String) : FErr :=
  let line := if error.isNotAllInputParsed then error.tokenLine else error.prevTokenLine
  let column :=
    if error.isNotAllInputParsed then error.tokenColumn else error.prevTokenColumn + 1
  FormulaError.ERROR (caretMessage inputText line column error.message)

/-- The outcome of the embedded recursive-descent run
`this.parser.formulaWithBinaryOp()`: a value, or a thrown exception. -/
inductive RunOutcome where
  | ret : JSValue → RunOutcome
  | exc : JSErr → RunOutcome

/-- The `.message` of a caught exception as the catch block of `parse`
reads it. -/
def jsErrMessage : JSErr → String
  | .ferr e => e.msg.getD ""
  | .jsError m => m
  | .typeError => "Cannot read properties of null"

/-- `FormulaParser.parse` from `src/grammar/hooks.ts`, with the
chevrotain tokenizer and parser engine abstracted by their outcomes:
empty input throws a plain Error; a lexing error propagates out of `lex`
as a thrown `#ERROR!`; the parse run and `checkFormulaResult` execute
under the try block whose catch rethrows any exception wrapped as
`#ERROR!`; a FormulaError result value returns early; otherwise a
recorded parser error is formatted and thrown; else the value is
returned. -/
def FormulaParser.parse (host : EvalHost) (inputText : String)
    (lexingResult : TokenizeResult) (run : RunOutcome)
    (parserErrors : List ChevErrRec) (allowReturnArray : Bool) :
    Except JSErr JSValue :=
  if inputText.length = 0 then .error (.jsError "Input must not be empty.")
  else
    match lex inputText lexingResult with
    | .error e => .error e
    | .ok _ =>
        let tryRes : Except JSErr JSValue :=
          match run with
          | .exc e => .error e
          | .ret v => FormulaParser.checkFormulaResult host v allowReturnArray
        match tryRes with
        | .error e => .error (.ferr (FormulaError.ERROR (jsErrMessage e)))
        | .ok res =>
            if isFormulaError res then .ok res
            else
              match parserErrors with
              | [] => .ok res
              | error :: _ =>
                  .error (.ferr (Utils.formatChevrotainError error inputText))

/-- The mutable state of a `DepParser`: the recorded dependency list and
the per-parse position. -/
structure DepState where
  data : List RefShape
  position : Option PositionRec

/-- The `findIndex` predicate of `DepParser.getCell`: the cell lies
within a recorded range (row and column spans, no sheet check), or it
equals a recorded cell (row, column and sheet). -/
def depCellMatch (ref : CellShaped) (element : RefShape) : Bool :=
  (match element with
   | .range er =>
       jcoordLe er.fromRow ref.row && jcoordGe er.toRow ref.row &&
       jcoordLe er.fromCol ref.col && jcoordGe er.toCol ref.col
   | .cell _ => false)
  ||
  (match element with
   | .cell ec =>
       jcoordStrictEq ec.row ref.row && jcoordStrictEq ec.col ref.col &&
       ec.sheet == ref.sheet
   | .range _ => false)

/-- The `findIndex` predicate of `DepParser.getRange`: a recorded range
with identical from/to coordinates (no sheet check). -/
def depRangeMatch (ref : RangeShaped) (element : RefShape) : Bool :=
  match element with
  | .range er =>
      jcoordStrictEq er.fromRow ref.fromRow && jcoordStrictEq er.fromCol ref.fromCol &&
      jcoordStrictEq er.toRow ref.toRow && jcoordStrictEq er.toCol ref.toCol
  | .cell _ => false

/-- The sheet normalisation shared by the two recorders: a reference
without a sheet inherits the position sheet. -/
def depNormalizeCell (position : Option PositionRec) (ref : CellShaped) : CellShaped :=
  match position with
  | some pos => if ref.sheet = none then { ref with sheet := pos.sheet } else ref
  | none => ref

/-- Sheet normalisation for a range reference. -/
def depNormalizeRange (position : Option PositionRec) (ref : RangeShaped) : RangeShaped :=
  match position with
  | some pos => if ref.sheet = none then { ref with sheet := pos.sheet } else ref
  | none => ref

/-- `DepParser.getCell` from `src/grammar/dependency/hooks.ts`: record
the (sheet-normalised) cell unless its row is nullish or it matches the
dedup predicate against an already recorded reference; always answer the
stub 0. -/
def DepParser.getCell (st : DepState) (ref : CellShaped) : DepState × JSValue :=
  if ref.row.isNotNullish then
    let ref' := depNormalizeCell st.position ref
    if st.data.any (depCellMatch ref') then (st, .num (.fin 0))
    else ({ st with data := st.data ++ [.cell ref'] }, .num (.fin 0))
  else (st, .num (.fin 0))

/-- `DepParser.getRange`: record the (sheet-normalised) range unless its
from-row is nullish or an identical range is already recorded; always
answer the stub `[[0]]`. -/
def DepParser.getRange (st : DepState) (ref : RangeShaped) : DepState × JSValue :=
  if ref.fromRow.isNotNullish then
    let ref' := depNormalizeRange st.position ref
    if st.data.any (depRangeMatch ref') then (st, .arr [.arr [.num (.fin 0)]])
    else ({ st with data := st.data ++ [.range ref'] }, .arr [.arr [.num (.fin 0)]])
  else (st, .arr [.arr [.num (.fin 0)]])

/-- One reference lookup observed during a dependency parse. -/
inductive DepEvent where
  | onCellE : CellShaped → DepEvent
  | onRangeE : RangeShaped → DepEvent

/-- State transition of one lookup. -/
def DepParser.stepEvent (st : DepState) : DepEvent → DepState
  | .onCellE c => (DepParser.getCell st c).1
  | .onRangeE r => (DepParser.getRange st r).1

/-- The dependency list produced by a sequence of lookups starting from
the empty list, as `DepParser.parse` returns it. -/
def DepParser.runEvents (pos : Option PositionRec) (events : List DepEvent) : DepState :=
  events.foldl DepParser.stepEvent { data := [], position := pos }

/-- A minimal host used to instantiate theorems at concrete inputs:
every cell reads 0 and every range reads `[[0]]`. -/
def hostExample : EvalHost :=
  { onCell := fun _ => .num (.fin 0)
    onRange := fun _ => [[.num (.fin 0)]]
    position := none }

/-- A one-function registry whose only function returns null, used for
the C10 witness. -/
def c10StateExample : ParserState :=
  { host := hostExample
    functions := fun n => if n = "F" then some (fun _ => FnOutcome.ret .nullV) else none
    funsNullAs0 := []
    funsNeedContextAndNoDataRetrieve := []
    funsNeedContext := []
    funsPreserveRef := []
    isTest := false }

/-- The range reference spanning a bounding box. -/
def mkRangeFromBox (s : Option String) (A : IBox) : RangeShaped :=
  { sheet := s, fromRow := .num A.minRow, fromCol := .num A.minCol
    toRow := .num A.maxRow, toCol := .num A.maxCol }

/-- Componentwise overlap of two boxes, as the loop computes it. -/
def boxIntersect (box rb : IBox) : IBox :=
  { minRow := max box.minRow rb.minRow
    maxRow := min box.maxRow rb.maxRow
    minCol := max box.minCol rb.minCol
    maxCol := min box.maxCol rb.maxCol }

/-- The reference built from the final box: a cell reference exactly
when the box is 1x1, a range reference otherwise (falsy sheet deleted). -/
def boxResultRef (s : Option String) (box : IBox) : JSValue :=
  if box.maxRow = box.minRow ∧ box.maxCol = box.minCol then
    .refv (.cell { sheet := deleteFalsySheet s, address := none
                   row := .num box.maxRow, col := .num box.maxCol })
  else
    .refv (.range { sheet := deleteFalsySheet s
                    fromRow := .num box.minRow, fromCol := .num box.minCol
                    toRow := .num box.maxRow, toCol := .num box.maxCol })

/-- Whether a later recorded reference duplicates an earlier one under
the dedup predicate its recorder uses. -/
def dupMatch (later earlier : RefShape) : Bool :=
  match later with
  | .cell c => depCellMatch c earlier
  | .range r => depRangeMatch r earlier

/-- The sheet-normalised reference an event would record. -/
def normEventRef (pos : Option PositionRec) : DepEvent → RefShape
  | .onCellE c => .cell (depNormalizeCell pos c)
  | .onRangeE r => .range (depNormalizeRange pos r)

/-- Example cell used in the C8 witness. -/
def c8CellExample : CellShaped :=
  { sheet := none, address := none, row := .num 1, col := .num 1 }

/-- Example dependency state that has already recorded the cell. -/
def c8StateExample : DepState :=
  { data := [.cell c8CellExample], position := none }

/-- A recorded parser error as chevrotain would leave it for the input
`1+`: a recognition exception whose previous token `+` starts at 1:2. -/
def c1ParserErrorExample : ChevErrRec :=
  { isNotAllInputParsed := false, tokenLine := 1, tokenColumn := 3
    prevTokenLine := 1, prevTokenColumn := 2
    message := "NoViableAltException" }

/-- C9: `Address.columnNameToNumber` converts a column name to its
1-based column number by base-26 with A=1 (A→1, Z→26, AA→27, AZ→52,
BA→53, XFD→16384), and `parseCellAddress` maps `A1` to column 1 row 1
and `XFD1048576` to column `MAX_COLUMN` row `MAX_ROW`. -/
theorem c9_column_numbering_and_cell_address :
    Address.columnNameToNumber "A" = 1 ∧
    Address.columnNameToNumber "Z" = 26 ∧
    Address.columnNameToNumber "AA" = 27 ∧
    Address.columnNameToNumber "AZ" = 52 ∧
    Address.columnNameToNumber "BA" = 53 ∧
    Address.columnNameToNumber "XFD" = MAX_COLUMN ∧
    Utils.parseCellAddress "A1" =
      .ok (.refv (.cell { sheet := none, address := some "A1",
                          row := .num 1, col := .num 1 })) ∧
    Utils.parseCellAddress "XFD1048576" =
      .ok (.refv (.cell { sheet := none, address := some "XFD1048576",
                          row := .num MAX_ROW, col := .num MAX_COLUMN })) := by
  refine ⟨?_, ?_, ?_, ?_, ?_, ?_, ?_, ?_⟩ <;> rfl

/-- C7: for each of the seven standard error codes, constructing a
FormulaError with that code and no message and no details against the
initialized singleton table returns the registered static instance and
leaves the table unchanged (so every construction yields the identical
instance, e.g. `new FormulaError(dDIV0) === FormulaError.DIV0`), and
`equals` holds exactly when the two errors carry the same code string,
independent of object identity. -/
theorem c7_error_singletons_and_equality :
    (FormulaError.construct "#NULL!" none false staticInitHeap
        = (staticErrObj "#NULL!", staticInitHeap)) ∧
    (FormulaError.construct "#DIV/0!" none false staticInitHeap
        = (staticErrObj "#DIV/0!", staticInitHeap)) ∧
    (FormulaError.construct "#VALUE!" none false staticInitHeap
        = (staticErrObj "#VALUE!", staticInitHeap)) ∧
    (FormulaError.construct "#REF!" none false staticInitHeap
        = (staticErrObj "#REF!", staticInitHeap)) ∧
    (FormulaError.construct "#NAME?" none false staticInitHeap
        = (staticErrObj "#NAME?", staticInitHeap)) ∧
    (FormulaError.construct "#NUM!" none false staticInitHeap
        = (staticErrObj "#NUM!", staticInitHeap)) ∧
    (FormulaError.construct "#N/A" none false staticInitHeap
        = (staticErrObj "#N/A", staticInitHeap)) ∧
    (∀ a b : ErrObj, ErrObj.equals a b = true ↔ b.errorCode = a.errorCode) := by
  refine ⟨by decide, by decide, by decide, by decide, by decide, by decide, by decide, ?_⟩
  intro a b
  simp [ErrObj.equals]

/-- C6: in the infix dispatcher, a FormulaError left operand is returned
unchanged; otherwise a FormulaError right operand is returned; the
comparison, concatenation or math core runs only when neither operand is
an error. -/
theorem c6_infix_error_short_circuit :
    ∀ (res1 res2 : ExtractedValue) (op : String),
      (isFormulaError res1.val = true →
          Utils.applyBinaryOp res1 op res2 = .ok res1.val) ∧
      (isFormulaError res1.val = false → isFormulaError res2.val = true →
          Utils.applyBinaryOp res1 op res2 = .ok res2.val) ∧
      (isFormulaError res1.val = false → isFormulaError res2.val = false →
          Utils.applyBinaryOp res1 op res2 =
            (if Operators.compareOp.contains op then
              Ops.compareOp res1.val op res2.val res1.isArray res2.isArray
            else if Operators.concatOp.contains op then
              Ops.concatOp res1.val op res2.val res1.isArray res2.isArray
            else if Operators.mathOp.contains op then
              Ops.mathOp res1.val op res2.val res1.isArray res2.isArray
            else .error (.jsError "Unrecognized infix operator"))) := by
  intro res1 res2 op
  refine ⟨fun h1 => ?_, fun h1 h2 => ?_, fun h1 h2 => ?_⟩
  · simp [Utils.applyBinaryOp, h1]
  · simp [Utils.applyBinaryOp, h1, h2]
  · simp [Utils.applyBinaryOp, h1, h2]

/-- Witness for C6 at a concrete input: a `#VALUE!` left operand is
returned unchanged by the `+` dispatcher. -/
theorem c6_infix_error_short_circuit_witness :
    Utils.applyBinaryOp ⟨.ferr FormulaError.VALUE, false⟩ "+" ⟨.num (.fin 1), false⟩
      = .ok (.ferr FormulaError.VALUE) :=
  (c6_infix_error_short_circuit ⟨.ferr FormulaError.VALUE, false⟩
    ⟨.num (.fin 1), false⟩ "+").1 rfl

/-- The recursive array case of `acceptNumber` with default arguments
coincides with the helper that evaluates `obj[0][0]`. -/
theorem acceptNumber_default_eq (x : JSValue) :
    acceptNumber x true true = acceptNumber00 x := by
  cases x <;> rfl

/-- Counterexample for C5: with `isArray = false` the claim requires a
non-1x1 array to be rejected with `#VALUE!`, but the code only checks
the first row length, so the 2x1 array `[[5],[7]]` is accepted and
yields 5. -/
theorem c5_counterexample :
    acceptNumber (.arr [.arr [.num (.fin 5)], .arr [.num (.fin 7)]]) false true
        = .ok (.num (.fin 5)) ∧
    acceptNumber (.arr [.arr [.num (.fin 5)], .arr [.num (.fin 7)]]) false true
        ≠ .error (.ferr FormulaError.VALUE) := by
  refine ⟨rfl, fun h => ?_⟩
  rw [show acceptNumber (.arr [.arr [.num (.fin 5)], .arr [.num (.fin 7)]]) false true
        = .ok (.num (.fin 5)) from rfl] at h
  exact Except.noConfusion h

/-- C5 (amended): `acceptNumber` accepts a number as-is; maps booleans
to 1/0 when allowed and raises `#VALUE!` otherwise; parses non-empty
numeric strings and raises `#VALUE!` for the empty or non-numeric
string; for an array it takes `[0][0]` when `isArray = true`, and when
`isArray = false` it requires the first row to have exactly one element
(a single-column check, regardless of the number of rows) before taking
`[0][0]`; other inputs fail with a thrown error. -/
theorem c5_accept_number_amended :
    (∀ (n : JNum) (ia ab : Bool), acceptNumber (.num n) ia ab = .ok (.num n)) ∧
    (∀ ia, acceptNumber (.boolean true) ia true = .ok (.num (.fin 1))) ∧
    (∀ ia, acceptNumber (.boolean false) ia true = .ok (.num (.fin 0))) ∧
    (∀ ia b, acceptNumber (.boolean b) ia false = .error (.ferr FormulaError.VALUE)) ∧
    (∀ ia ab, acceptNumber (.str "") ia ab = .error (.ferr FormulaError.VALUE)) ∧
    (∀ (s : String) (ia ab : Bool), s.length ≠ 0 → (jsStringToNumber s).isNaNb = false →
        acceptNumber (.str s) ia ab = .ok (.num (jsStringToNumber s))) ∧
    (∀ (s : String) (ia ab : Bool), s.length ≠ 0 → (jsStringToNumber s).isNaNb = true →
        acceptNumber (.str s) ia ab = .error (.ferr FormulaError.VALUE)) ∧
    (∀ (x : JSValue) (row rest : List JSValue) (ab : Bool),
        acceptNumber (.arr (.arr (x :: row) :: rest)) true ab
          = acceptNumber x true true) ∧
    (∀ (x : JSValue) (row rest : List JSValue) (ab : Bool),
        acceptNumber (.arr (.arr (x :: row) :: rest)) false ab
          = (if row.length = 0 then acceptNumber x true true
             else .error (.ferr FormulaError.VALUE))) ∧
    (∀ ia ab, acceptNumber .nullV ia ab
        = .error (.jsError "Unknown type in FormulaHelpers.acceptNumber")) ∧
    (∀ r ia ab, acceptNumber (.refv r) ia ab
        = .error (.jsError "Unknown type in FormulaHelpers.acceptNumber")) := by
  refine ⟨fun n ia ab => rfl, fun ia => rfl, fun ia => rfl, fun ia b => rfl,
    fun ia ab => rfl, ?_, ?_, ?_, ?_, fun ia ab => rfl, fun r ia ab => rfl⟩
  · intro s ia ab hlen hnan
    simp [acceptNumber, acceptNumberScalar, hlen, hnan]
  · intro s ia ab hlen hnan
    simp [acceptNumber, acceptNumberScalar, hlen, hnan]
  · intro x row rest ab
    exact (acceptNumber_default_eq x).symm
  · intro x row rest ab
    cases row with
    | nil => simpa [acceptNumber, jsLength] using (acceptNumber_default_eq x).symm
    | cons y ys =>
        simp [acceptNumber, jsLength]
        omega

/-- Witness for C5 (amended) at concrete inputs: the numeric string 12
is accepted, the non-numeric string abc raises `#VALUE!`, and a 1x2 row
is rejected by the single-column check. -/
theorem c5_accept_number_amended_witness :
    acceptNumber (.str "12") false true = .ok (.num (jsStringToNumber "12")) ∧
    acceptNumber (.str "abc") false true = .error (.ferr FormulaError.VALUE) ∧
    acceptNumber (.arr [.arr [.num (.fin 5), .num (.fin 6)]]) false true
      = .error (.ferr FormulaError.VALUE) := by
  obtain ⟨-, -, -, -, -, h6, h7, -, h9, -, -⟩ := c5_accept_number_amended
  exact ⟨h6 "12" false true (by decide) (by rfl),
    h7 "abc" false true (by decide) (by rfl),
    (h9 (.num (.fin 5)) [.num (.fin 6)] [] true).trans (by rfl)⟩

/-- C10: every function call that reaches a registered implementation
(sync or async) has its raw result post-processed by
`checkFunctionResult` before it becomes the value of the call: null
becomes `#NULL!`, a NaN number `#VALUE!`, an infinite number `#NUM!`,
and every other result passes through unchanged. -/
theorem c10_function_result_postprocessing :
    (∀ (st : ParserState) (name : String) (args : List (Option JSValue))
        (impl : List CallArg → FnOutcome) (v : JSValue),
        st.functions (canonicalName name) = some impl →
        impl (shapeArgs st (canonicalName name) args) = .ret v →
        v ≠ .undefined →
        FormulaParser.callFunction st name args = .ok (checkFunctionResult v) ∧
        FormulaParser.callFunctionAsync st name args = .ok (checkFunctionResult v)) ∧
    checkFunctionResult .nullV = .ferr FormulaError.NULL ∧
    checkFunctionResult (.num .nan) = .ferr FormulaError.VALUE ∧
    checkFunctionResult (.num .posInf) = .ferr FormulaError.NUM ∧
    checkFunctionResult (.num .negInf) = .ferr FormulaError.NUM ∧
    (∀ n : JNum, n.isNaNb = false → n.isFiniteb = true →
        checkFunctionResult (.num n) = .num n) ∧
    (∀ s, checkFunctionResult (.str s) = .str s) ∧
    (∀ b, checkFunctionResult (.boolean b) = .boolean b) ∧
    (∀ l, checkFunctionResult (.arr l) = .arr l) ∧
    (∀ e, checkFunctionResult (.ferr e) = .ferr e) ∧
    (∀ r, checkFunctionResult (.refv r) = .refv r) ∧
    (∀ l, checkFunctionResult (.collection l) = .collection l) := by
  refine ⟨?_, rfl, rfl, rfl, rfl, ?_, fun s => rfl, fun b => rfl, fun l => rfl,
    fun e => rfl, fun r => rfl, fun l => rfl⟩
  · intro st name args impl v h1 h2 h3
    have core : FormulaParser.callFunctionCore st name args = .ok v := by
      cases v <;> simp_all [FormulaParser.callFunctionCore]
    constructor
    · simp [FormulaParser.callFunction, core]
    · simp [FormulaParser.callFunctionAsync, core]
  · intro n h1 h2
    simp [checkFunctionResult, h1, h2]

/-- Witness for C10 at a concrete input: a registered function that
returns null makes the call evaluate to `#NULL!`. -/
theorem c10_function_result_postprocessing_witness :
    FormulaParser.callFunction c10StateExample "F" [] = .ok (.ferr FormulaError.NULL) ∧
    FormulaParser.callFunctionAsync c10StateExample "F" [] = .ok (.ferr FormulaError.NULL) := by
  have h := c10_function_result_postprocessing.1 c10StateExample "F" []
    (fun _ => FnOutcome.ret .nullV) .nullV (by rfl) (by rfl)
    (fun hc => JSValue.noConfusion hc)
  exact ⟨h.1.trans (by rfl), h.2.trans (by rfl)⟩

/-- C4: for the infix math operators, null (and undefined) operands
default to 0; a failed numeric coercion of either operand yields
`#VALUE!` (the thrown error is caught and returned); division by the
literal 0 right operand answers `#DIV/0!` for every left operand that
coerces; and a NaN result yields `#VALUE!` while an infinite result
yields `#NUM!` once `checkFormulaResult` sees it. -/
theorem c4_math_operator_coercion_and_errors :
    (∀ (op : String) (v1 v2 : JSValue) (ia1 ia2 : Bool),
        Ops.mathOp .nullV op v2 ia1 ia2 = Ops.mathOp (.num (.fin 0)) op v2 ia1 ia2 ∧
        Ops.mathOp .undefined op v2 ia1 ia2 = Ops.mathOp (.num (.fin 0)) op v2 ia1 ia2 ∧
        Ops.mathOp v1 op .nullV ia1 ia2 = Ops.mathOp v1 op (.num (.fin 0)) ia1 ia2 ∧
        Ops.mathOp v1 op .undefined ia1 ia2 = Ops.mathOp v1 op (.num (.fin 0)) ia1 ia2) ∧
    (∀ (v1 : JSValue) (op : String) (v2 : JSValue) (ia1 ia2 : Bool) (e : FErr),
        jsLooseNull v1 = false →
        acceptNumber v1 ia1 true = .error (.ferr e) →
        Ops.mathOp v1 op v2 ia1 ia2 = .ok (.ferr e)) ∧
    (∀ (v1 v2 : JSValue) (op : String) (ia1 ia2 : Bool) (n1 : JSValue) (e : FErr),
        jsLooseNull v1 = false → jsLooseNull v2 = false →
        acceptNumber v1 ia1 true = .ok n1 →
        acceptNumber v2 ia2 true = .error (.ferr e) →
        Ops.mathOp v1 op v2 ia1 ia2 = .ok (.ferr e)) ∧
    (∀ (v1 : JSValue) (ia1 ia2 : Bool) (n1 : JSValue),
        acceptNumber (if jsLooseNull v1 then JSValue.num (.fin 0) else v1) ia1 true = .ok n1 →
        Ops.mathOp v1 "/" (.num (.fin 0)) ia1 ia2 = .ok (.ferr FormulaError.DIV0)) ∧
    (∀ (v1 : JSValue) (op : String) (v2 : JSValue) (ia1 ia2 : Bool) (r : JNum)
        (host : EvalHost) (b : Bool),
        Ops.mathOp v1 op v2 ia1 ia2 = .ok (.num r) →
        (r.isNaNb = true →
            FormulaParser.checkFormulaResult host (.num r) b = .ok (.ferr FormulaError.VALUE)) ∧
        (r.isNaNb = false → r.isFiniteb = false →
            FormulaParser.checkFormulaResult host (.num r) b = .ok (.ferr FormulaError.NUM))) := by
  refine ⟨fun op v1 v2 ia1 ia2 => ⟨rfl, rfl, rfl, rfl⟩, ?_, ?_, ?_, ?_⟩
  · intro v1 op v2 ia1 ia2 e hnull hacc
    simp [Ops.mathOp, hnull, hacc]
  · intro v1 v2 op ia1 ia2 n1 e hnull1 hnull2 hacc1 hacc2
    simp [Ops.mathOp, hnull1, hnull2, hacc1, hacc2]
  · intro v1 ia1 ia2 n1 hacc
    simp only [Ops.mathOp, hacc]
    simp [mathCore, acceptNumber, acceptNumberScalar, JNum.isZero]
  · intro v1 op v2 ia1 ia2 r host b hres
    constructor
    · intro hnan
      cases r <;> first | rfl | (simp [JNum.isNaNb] at hnan; done)
    · intro hnan hfin
      cases r <;> first
        | rfl
        | (simp [JNum.isNaNb] at hnan; done)
        | (simp [JNum.isFiniteb] at hfin; done)

/-- Witness for C4 at concrete inputs: a non-numeric string yields
`#VALUE!` under `+`, `7 / 0` yields `#DIV/0!`, the NaN produced by
`Infinity - Infinity` yields `#VALUE!` downstream, and the infinity
produced by `Infinity + 1` yields `#NUM!` downstream. -/
theorem c4_math_operator_coercion_and_errors_witness :
    Ops.mathOp (.str "abc") "+" (.num (.fin 1)) false false = .ok (.ferr FormulaError.VALUE) ∧
    Ops.mathOp (.num (.fin 7)) "/" (.num (.fin 0)) false false = .ok (.ferr FormulaError.DIV0) ∧
    FormulaParser.checkFormulaResult hostExample (.num .nan) false
      = .ok (.ferr FormulaError.VALUE) ∧
    FormulaParser.checkFormulaResult hostExample (.num .posInf) false
      = .ok (.ferr FormulaError.NUM) := by
  obtain ⟨-, h2, -, h4, h5⟩ := c4_math_operator_coercion_and_errors
  refine ⟨h2 (.str "abc") "+" (.num (.fin 1)) false false FormulaError.VALUE rfl (by rfl),
    h4 (.num (.fin 7)) false false (.num (.fin 7)) (by rfl),
    (h5 (.num .posInf) "-" (.num .posInf) false false .nan hostExample false (by rfl)).1 rfl,
    (h5 (.num .posInf) "+" (.num (.fin 1)) false false .posInf hostExample false
      (by rfl)).2 rfl rfl⟩

/-- C3: `checkFormulaResult` maps NaN to `#VALUE!`, the infinities to
`#NUM!`, collapses negative zero, and passes finite numbers and
FormulaError values through; with `allowReturnArray = false` it
dereferences a single-cell reference, dereferences the top cell of a
range whose columns coincide, takes `[0][0]` of an array, and answers
`#VALUE!` for any other object (a union collection, a non-collapsing
range, a reference without a truthy row); with
`allowReturnArray = true` it dereferences any reference and a remaining
non-array non-null object answers `#VALUE!`. -/
theorem c3_check_formula_result : ∀ (host : EvalHost) (b : Bool),
    (FormulaParser.checkFormulaResult host (.num .nan) b = .ok (.ferr FormulaError.VALUE)) ∧
    (FormulaParser.checkFormulaResult host (.num .posInf) b = .ok (.ferr FormulaError.NUM)) ∧
    (FormulaParser.checkFormulaResult host (.num .negInf) b = .ok (.ferr FormulaError.NUM)) ∧
    (FormulaParser.checkFormulaResult host (.num .negZero) b = .ok (.num (.fin 0))) ∧
    (∀ q : ℚ, FormulaParser.checkFormulaResult host (.num (.fin q)) b = .ok (.num (.fin q))) ∧
    (∀ e, FormulaParser.checkFormulaResult host (.ferr e) b = .ok (.ferr e)) ∧
    (∀ c : CellShaped, c.row.truthy = true →
        FormulaParser.checkFormulaResult host (.refv (.cell c)) false
          = .ok (FormulaParser.getCell host c)) ∧
    (∀ c : CellShaped, c.row.truthy = false →
        FormulaParser.checkFormulaResult host (.refv (.cell c)) false
          = .ok (.ferr FormulaError.VALUE)) ∧
    (∀ r : RangeShaped, jcoordStrictEq r.fromCol r.toCol = true →
        FormulaParser.checkFormulaResult host (.refv (.range r)) false
          = .ok (FormulaParser.getCell host
              { sheet := none, address := none, row := r.fromRow, col := r.fromCol })) ∧
    (∀ r : RangeShaped, jcoordStrictEq r.fromCol r.toCol = false →
        FormulaParser.checkFormulaResult host (.refv (.range r)) false
          = .ok (.ferr FormulaError.VALUE)) ∧
    (∀ (x : JSValue) (row rest : List JSValue),
        FormulaParser.checkFormulaResult host (.arr (.arr (x :: row) :: rest)) false
          = .ok x) ∧
    (∀ l, FormulaParser.checkFormulaResult host (.collection l) b
        = .ok (.ferr FormulaError.VALUE)) ∧
    (∀ r : RangeShaped, FormulaParser.checkFormulaResult host (.refv (.range r)) true
        = .ok (FormulaParser.getRange host r)) ∧
    (∀ c : CellShaped, FormulaParser.checkFormulaResult host (.refv (.cell c)) true
        = .ok (strayObjectCheck (FormulaParser.getCell host c))) := by
  intro host b
  refine ⟨rfl, rfl, rfl, rfl, ?_, fun e => rfl, ?_, ?_, ?_, ?_,
    fun x row rest => rfl, ?_, fun r => rfl, fun c => rfl⟩
  · intro q
    simp [FormulaParser.checkFormulaResult, typeofStr, jadd, JNum.isNaNb, JNum.isFiniteb]
  · intro c h
    simp [FormulaParser.checkFormulaResult, typeofStr, refOf, h]
  · intro c h
    simp [FormulaParser.checkFormulaResult, typeofStr, refOf, h]
  · intro r h
    simp [FormulaParser.checkFormulaResult, typeofStr, refOf, h]
  · intro r h
    simp [FormulaParser.checkFormulaResult, typeofStr, refOf, h]
  · intro l
    cases b <;> rfl

/-- Witness for C3 at concrete inputs: a finite number passes through, a
single-cell reference dereferences against the example host, a
column-collapsing range dereferences its top cell, and a non-collapsing
range answers `#VALUE!`. -/
theorem c3_check_formula_result_witness :
    FormulaParser.checkFormulaResult hostExample (.num (.fin 3)) false
      = .ok (.num (.fin 3)) ∧
    FormulaParser.checkFormulaResult hostExample
      (.refv (.cell { sheet := none, address := none, row := .num 1, col := .num 1 })) false
      = .ok (.num (.fin 0)) ∧
    FormulaParser.checkFormulaResult hostExample
      (.refv (.range { sheet := none, fromRow := .num 1, fromCol := .num 2,
                       toRow := .num 9, toCol := .num 2 })) false
      = .ok (.num (.fin 0)) ∧
    FormulaParser.checkFormulaResult hostExample
      (.refv (.range { sheet := none, fromRow := .num 1, fromCol := .num 2,
                       toRow := .num 9, toCol := .num 3 })) false
      = .ok (.ferr FormulaError.VALUE) := by
  obtain ⟨-, -, -, -, h5, -, h7, -, h9, h10, -, -, -, -⟩ :=
    c3_check_formula_result hostExample false
  refine ⟨h5 3, ?_, ?_, ?_⟩
  · exact (h7 { sheet := none, address := none, row := .num 1, col := .num 1 } rfl).trans rfl
  · exact (h9 { sheet := none, fromRow := .num 1, fromCol := .num 2,
                toRow := .num 9, toCol := .num 2 } (by rfl)).trans rfl
  · exact h10 { sheet := none, fromRow := .num 1, fromCol := .num 2,
                toRow := .num 9, toCol := .num 3 } (by rfl)

/-- The bounding box of a range built from an ordered box is that box. -/
theorem rangeBox_mkRangeFromBox (s : Option String) (B : IBox)
    (h1 : B.minRow ≤ B.maxRow) (h2 : B.minCol ≤ B.maxCol) :
    rangeBox (mkRangeFromBox s B) = B := by
  cases B with
  | mk a b c d =>
      simp only [rangeBox, mkRangeFromBox, JCoord.toIntForMinMax, IBox.mk.injEq] at *
      refine ⟨?_, ?_, ?_, ?_⟩ <;> omega

/-- Unfolding of one loop iteration on a range reference. -/
theorem intersectStep_range_eq (s : Option String) (box : IBox) (err : Option FErr)
    (rg : RangeShaped) :
    intersectStep s (box, err) (.refv (.range rg))
      = .ok (boxIntersect box (rangeBox rg),
          if (rangeBox rg).minRow > box.maxRow ∨ (rangeBox rg).maxRow < box.minRow ∨
             (rangeBox rg).minCol > box.maxCol ∨ (rangeBox rg).maxCol < box.minCol ∨
             s ≠ rg.sheet then some FormulaError.NULL else err) := rfl

/-- Unfolding of one loop iteration on a full cell reference. -/
theorem intersectStep_cell_eq (s sh ad : Option String) (box : IBox) (err : Option FErr)
    (r co : Int) :
    intersectStep s (box, err)
        (.refv (.cell { sheet := sh, address := ad, row := .num r, col := .num co }))
      = .ok ({ minRow := r, maxRow := r, minCol := co, maxCol := co },
          if r > box.maxRow ∨ r < box.minRow ∨ co > box.maxCol ∨ co < box.minCol ∨ s ≠ sh
          then some FormulaError.NULL else err) := rfl

/-- Unfolding of `applyIntersect` on a list headed by a range built from
an ordered box. -/
theorem applyIntersect_cons_range (s : Option String) (A : IBox)
    (h1 : A.minRow ≤ A.maxRow) (h2 : A.minCol ≤ A.maxCol) (rest : List JSValue) :
    Utils.applyIntersect (.refv (.range (mkRangeFromBox s A)) :: rest)
      = (match intersectFold s (A, none) rest with
         | .error e => .error e
         | .ok (_, some e) => .ok (.ferr e)
         | .ok (box, none) =>
             if box.maxRow = box.minRow ∧ box.maxCol = box.minCol then
               .ok (.refv (.cell { sheet := deleteFalsySheet s, address := none
                                   row := .num box.maxRow, col := .num box.maxCol }))
             else
               .ok (.refv (.range { sheet := deleteFalsySheet s
                                    fromRow := .num box.minRow, fromCol := .num box.minCol
                                    toRow := .num box.maxRow, toCol := .num box.maxCol }))) := by
  have hA := rangeBox_mkRangeFromBox s A h1 h2
  simp only [Utils.applyIntersect, isFormulaError, refOf, RefShape.sheetOf,
    intersectInitBox, hA, deleteFalsySheet]
  rfl

/-- Unfolding of `applyIntersect` on a list headed by a full cell. -/
theorem applyIntersect_cons_cell (s ad : Option String) (r co : Int) (rest : List JSValue) :
    Utils.applyIntersect
        (.refv (.cell { sheet := s, address := ad, row := .num r, col := .num co }) :: rest)
      = (match intersectFold s ({ minRow := r, maxRow := r, minCol := co, maxCol := co }, none)
             rest with
         | .error e => .error e
         | .ok (_, some e) => .ok (.ferr e)
         | .ok (box, none) =>
             if box.maxRow = box.minRow ∧ box.maxCol = box.minCol then
               .ok (.refv (.cell { sheet := deleteFalsySheet s, address := none
                                   row := .num box.maxRow, col := .num box.maxCol }))
             else
               .ok (.refv (.range { sheet := deleteFalsySheet s
                                    fromRow := .num box.minRow, fromCol := .num box.minCol
                                    toRow := .num box.maxRow, toCol := .num box.maxCol }))) := rfl

/-- A one-element `forEach` loop runs exactly one step. -/
theorem intersectFold_singleton (s : Option String) (st : IBox × Option FErr) (v : JSValue) :
    intersectFold s st [v] = intersectStep s st v := by
  cases h : intersectStep s st v <;> simp [intersectFold, h] <;> rfl

/-- C2: `applyIntersect` performs a shrink-intersection: the running box
starts from the first reference (a cell counts as a 1x1 box); each
subsequent same-sheet reference overlapping the running box replaces it
with the overlap; a disjoint reference or one on a differing sheet makes
the result `#NULL!`; whole-row x whole-row and whole-col x whole-col
combinations are rejected with a thrown Error; and the final reference
collapses to a cell exactly when the box is 1x1 and is a range of the
overlap otherwise. -/
theorem c2_apply_intersect_shrink :
    (∀ (s : Option String) (box B : IBox) (err : Option FErr),
        B.minRow ≤ B.maxRow → B.minCol ≤ B.maxCol →
        B.minRow ≤ box.maxRow → box.minRow ≤ B.maxRow →
        B.minCol ≤ box.maxCol → box.minCol ≤ B.maxCol →
        intersectStep s (box, err) (.refv (.range (mkRangeFromBox s B)))
          = .ok (boxIntersect box B, err)) ∧
    (∀ (s ad : Option String) (box : IBox) (err : Option FErr) (r co : Int),
        box.minRow ≤ r → r ≤ box.maxRow → box.minCol ≤ co → co ≤ box.maxCol →
        intersectStep s (box, err)
            (.refv (.cell { sheet := s, address := ad, row := .num r, col := .num co }))
          = .ok ({ minRow := r, maxRow := r, minCol := co, maxCol := co }, err)) ∧
    (∀ (s : Option String) (A B : IBox),
        A.minRow ≤ A.maxRow → A.minCol ≤ A.maxCol →
        B.minRow ≤ B.maxRow → B.minCol ≤ B.maxCol →
        B.minRow ≤ A.maxRow → A.minRow ≤ B.maxRow →
        B.minCol ≤ A.maxCol → A.minCol ≤ B.maxCol →
        Utils.applyIntersect
            [.refv (.range (mkRangeFromBox s A)), .refv (.range (mkRangeFromBox s B))]
          = .ok (boxResultRef s (boxIntersect A B))) ∧
    (∀ (s ad : Option String) (r co : Int) (B : IBox),
        B.minRow ≤ B.maxRow → B.minCol ≤ B.maxCol →
        B.minRow ≤ r → r ≤ B.maxRow → B.minCol ≤ co → co ≤ B.maxCol →
        Utils.applyIntersect
            [.refv (.cell { sheet := s, address := ad, row := .num r, col := .num co }),
             .refv (.range (mkRangeFromBox s B))]
          = .ok (boxResultRef s { minRow := r, maxRow := r, minCol := co, maxCol := co })) ∧
    (∀ (s : Option String) (A B : IBox),
        A.minRow ≤ A.maxRow → A.minCol ≤ A.maxCol →
        B.minRow ≤ B.maxRow → B.minCol ≤ B.maxCol →
        (B.minRow > A.maxRow ∨ B.maxRow < A.minRow ∨
         B.minCol > A.maxCol ∨ B.maxCol < A.minCol) →
        Utils.applyIntersect
            [.refv (.range (mkRangeFromBox s A)), .refv (.range (mkRangeFromBox s B))]
          = .ok (.ferr FormulaError.NULL)) ∧
    (∀ (s1 s2 : Option String) (A B : IBox),
        A.minRow ≤ A.maxRow → A.minCol ≤ A.maxCol →
        B.minRow ≤ B.maxRow → B.minCol ≤ B.maxCol →
        s1 ≠ s2 →
        Utils.applyIntersect
            [.refv (.range (mkRangeFromBox s1 A)), .refv (.range (mkRangeFromBox s2 B))]
          = .ok (.ferr FormulaError.NULL)) ∧
    (∀ (s1 s2 ad1 ad2 : Option String) (n m : Int),
        Utils.applyIntersect
            [.refv (.cell { sheet := s1, address := ad1, row := .num n, col := .undefined }),
             .refv (.cell { sheet := s2, address := ad2, row := .num m, col := .undefined })]
          = .error (.jsError "Cannot intersect the whole row or column.") ∧
        Utils.applyIntersect
            [.refv (.cell { sheet := s1, address := ad1, row := .undefined, col := .num n }),
             .refv (.cell { sheet := s2, address := ad2, row := .undefined, col := .num m })]
          = .error (.jsError "Cannot intersect the whole row or column.")) ∧
    (∀ (s : Option String) (A : IBox),
        boxResultRef s A
          = (if A.maxRow = A.minRow ∧ A.maxCol = A.minCol then
              .refv (.cell { sheet := deleteFalsySheet s, address := none
                             row := .num A.maxRow, col := .num A.maxCol })
            else
              .refv (.range { sheet := deleteFalsySheet s
                              fromRow := .num A.minRow, fromCol := .num A.minCol
                              toRow := .num A.maxRow, toCol := .num A.maxCol }))) := by
  have hstepR : ∀ (s : Option String) (box B : IBox) (err : Option FErr),
      B.minRow ≤ B.maxRow → B.minCol ≤ B.maxCol →
      B.minRow ≤ box.maxRow → box.minRow ≤ B.maxRow →
      B.minCol ≤ box.maxCol → box.minCol ≤ B.maxCol →
      intersectStep s (box, err) (.refv (.range (mkRangeFromBox s B)))
        = .ok (boxIntersect box B, err) := by
    intro s box B err h1 h2 h3 h4 h5 h6
    rw [intersectStep_range_eq, rangeBox_mkRangeFromBox s B h1 h2, if_neg]
    push_neg
    refine ⟨by omega, by omega, by omega, by omega, rfl⟩
  have hstepC : ∀ (s ad : Option String) (box : IBox) (err : Option FErr) (r co : Int),
      box.minRow ≤ r → r ≤ box.maxRow → box.minCol ≤ co → co ≤ box.maxCol →
      intersectStep s (box, err)
          (.refv (.cell { sheet := s, address := ad, row := .num r, col := .num co }))
        = .ok ({ minRow := r, maxRow := r, minCol := co, maxCol := co }, err) := by
    intro s ad box err r co h1 h2 h3 h4
    rw [intersectStep_cell_eq, if_neg]
    push_neg
    refine ⟨by omega, by omega, by omega, by omega, rfl⟩
  refine ⟨hstepR, hstepC, ?_, ?_, ?_, ?_, ?_, fun s A => rfl⟩
  · intro s A B hA1 hA2 hB1 hB2 ho1 ho2 ho3 ho4
    rw [applyIntersect_cons_range s A hA1 hA2, intersectFold_singleton,
      hstepR s A B none hB1 hB2 ho1 ho2 ho3 ho4]
    simp [boxResultRef, apply_ite]
  · intro s ad r co B hB1 hB2 h1 h2 h3 h4
    rw [applyIntersect_cons_cell, intersectFold_singleton,
      hstepR s { minRow := r, maxRow := r, minCol := co, maxCol := co } B none hB1 hB2
        h1 h2 h3 h4]
    have hbox : boxIntersect { minRow := r, maxRow := r, minCol := co, maxCol := co } B
        = { minRow := r, maxRow := r, minCol := co, maxCol := co } := by
      simp only [boxIntersect, IBox.mk.injEq]
      refine ⟨by omega, by omega, by omega, by omega⟩
    rw [hbox]
    simp [boxResultRef, apply_ite]
  · intro s A B hA1 hA2 hB1 hB2 hdisj
    have hc : (B.minRow > A.maxRow ∨ B.maxRow < A.minRow ∨ B.minCol > A.maxCol ∨
        B.maxCol < A.minCol ∨ s ≠ (mkRangeFromBox s B).sheet) := by
      rcases hdisj with h | h | h | h
      · exact Or.inl h
      · exact Or.inr (Or.inl h)
      · exact Or.inr (Or.inr (Or.inl h))
      · exact Or.inr (Or.inr (Or.inr (Or.inl h)))
    rw [applyIntersect_cons_range s A hA1 hA2, intersectFold_singleton,
      intersectStep_range_eq, rangeBox_mkRangeFromBox s B hB1 hB2, if_pos hc]
  · intro s1 s2 A B hA1 hA2 hB1 hB2 hs
    have hc : (B.minRow > A.maxRow ∨ B.maxRow < A.minRow ∨ B.minCol > A.maxCol ∨
        B.maxCol < A.minCol ∨ s1 ≠ (mkRangeFromBox s2 B).sheet) :=
      Or.inr (Or.inr (Or.inr (Or.inr hs)))
    rw [applyIntersect_cons_range s1 A hA1 hA2, intersectFold_singleton,
      intersectStep_range_eq, rangeBox_mkRangeFromBox s2 B hB1 hB2, if_pos hc]
  · intro s1 s2 ad1 ad2 n m
    exact ⟨rfl, rfl⟩

/-- Witness for C2 at concrete inputs: overlapping ranges shrink to the
overlap box, a 1x1 overlap collapses to a cell, disjoint ranges answer
`#NULL!`, and two whole-row references throw. -/
theorem c2_apply_intersect_shrink_witness :
    Utils.applyIntersect
        [.refv (.range (mkRangeFromBox none ⟨1, 3, 1, 3⟩)),
         .refv (.range (mkRangeFromBox none ⟨2, 4, 2, 4⟩))]
      = .ok (.refv (.range { sheet := none, fromRow := .num 2, fromCol := .num 2
                             toRow := .num 3, toCol := .num 3 })) ∧
    Utils.applyIntersect
        [.refv (.range (mkRangeFromBox none ⟨1, 3, 1, 3⟩)),
         .refv (.range (mkRangeFromBox none ⟨3, 4, 3, 4⟩))]
      = .ok (.refv (.cell { sheet := none, address := none
                            row := .num 3, col := .num 3 })) ∧
    Utils.applyIntersect
        [.refv (.range (mkRangeFromBox none ⟨1, 2, 1, 2⟩)),
         .refv (.range (mkRangeFromBox none ⟨5, 6, 1, 2⟩))]
      = .ok (.ferr FormulaError.NULL) ∧
    Utils.applyIntersect
        [.refv (.cell { sheet := none, address := none, row := .num 1, col := .undefined }),
         .refv (.cell { sheet := none, address := none, row := .num 2, col := .undefined })]
      = .error (.jsError "Cannot intersect the whole row or column.") := by
  obtain ⟨-, -, h3, -, h5, -, h7, -⟩ := c2_apply_intersect_shrink
  refine ⟨?_, ?_, ?_, (h7 none none none none 1 2).1⟩
  · exact (h3 none ⟨1, 3, 1, 3⟩ ⟨2, 4, 2, 4⟩ (by decide) (by decide) (by decide) (by decide)
      (by decide) (by decide) (by decide) (by decide)).trans (by rfl)
  · exact (h3 none ⟨1, 3, 1, 3⟩ ⟨3, 4, 3, 4⟩ (by decide) (by decide) (by decide) (by decide)
      (by decide) (by decide) (by decide) (by decide)).trans (by rfl)
  · exact h5 none ⟨1, 2, 1, 2⟩ ⟨5, 6, 1, 2⟩ (by decide) (by decide) (by decide) (by decide)
      (Or.inl (by decide))

/-- A lookup never changes the stored position. -/
theorem stepEvent_position (st : DepState) (e : DepEvent) :
    (DepParser.stepEvent st e).position = st.position := by
  cases e <;>
    simp only [DepParser.stepEvent, DepParser.getCell, DepParser.getRange] <;>
    (repeat' split) <;> rfl

/-- A lookup either leaves the list unchanged or appends exactly its
normalised reference, and it appends only when no recorded element
matches it. -/
theorem stepEvent_data (st : DepState) (e : DepEvent) :
    (DepParser.stepEvent st e).data = st.data ∨
    ((DepParser.stepEvent st e).data = st.data ++ [normEventRef st.position e] ∧
      st.data.any (dupMatch (normEventRef st.position e)) = false) := by
  cases e with
  | onCellE c =>
      simp only [DepParser.stepEvent, DepParser.getCell, normEventRef, dupMatch]
      split
      · split
        · exact Or.inl rfl
        · exact Or.inr ⟨rfl, by simp_all [dupMatch]⟩
      · exact Or.inl rfl
  | onRangeE r =>
      simp only [DepParser.stepEvent, DepParser.getRange, normEventRef, dupMatch]
      split
      · split
        · exact Or.inl rfl
        · exact Or.inr ⟨rfl, by simp_all [dupMatch]⟩
      · exact Or.inl rfl

/-- Folding lookups preserves the no-later-duplicate invariant. -/
theorem depData_pairwise_aux (events : List DepEvent) (st : DepState)
    (h : List.Pairwise (fun a b => dupMatch b a = false) st.data) :
    List.Pairwise (fun a b => dupMatch b a = false)
      ((events.foldl DepParser.stepEvent st).data) := by
  induction events generalizing st with
  | nil => simpa using h
  | cons e es ih =>
      rw [List.foldl_cons]
      apply ih
      rcases stepEvent_data st e with hd | ⟨hd, hany⟩
      · rw [hd]; exact h
      · rw [hd]
        rw [List.pairwise_append]
        refine ⟨h, List.pairwise_singleton _ _, ?_⟩
        intro a ha b hb
        simp only [List.mem_singleton] at hb
        subst hb
        simp only [List.any_eq_false] at hany
        simpa using hany a ha

/-- Folding lookups appends a subsequence of the normalised event
references, in event order. -/
theorem depData_sublist_aux (events : List DepEvent) (st : DepState) :
    ∃ t, (events.foldl DepParser.stepEvent st).data = st.data ++ t ∧
      t.Sublist (events.map (normEventRef st.position)) := by
  induction events generalizing st with
  | nil => exact ⟨[], by simp, by simp⟩
  | cons e es ih =>
      obtain ⟨t, ht1, ht2⟩ := ih (DepParser.stepEvent st e)
      rw [stepEvent_position st e] at ht2
      rcases stepEvent_data st e with hd | ⟨hd, -⟩
      · refine ⟨t, ?_, ?_⟩
        · rw [List.foldl_cons, ht1, hd]
        · exact List.Sublist.trans ht2 (by simp)
      · refine ⟨normEventRef st.position e :: t, ?_, ?_⟩
        · rw [List.foldl_cons, ht1, hd, List.append_assoc]
          rfl
        · simpa using List.Sublist.cons₂ (normEventRef st.position e) ht2

/-- C8: in dependency mode, `getCell` always answers the stub 0 and
`getRange` the stub `[[0]]`; a cell is skipped exactly when it equals an
already-recorded cell or lies within an already-recorded range span and
is appended otherwise; a range is skipped exactly when a recorded range
has identical from/to coordinates and is appended otherwise; over any
lookup sequence the recorded list never contains a reference matching an
earlier one, and it lists the deduplicated references in discovery
order (a sublist of the normalised lookups). -/
theorem c8_dependency_dedup :
    (∀ (st : DepState) (c : CellShaped), (DepParser.getCell st c).2 = .num (.fin 0)) ∧
    (∀ (st : DepState) (r : RangeShaped),
        (DepParser.getRange st r).2 = .arr [.arr [.num (.fin 0)]]) ∧
    (∀ (st : DepState) (c : CellShaped), c.row.isNotNullish = true →
        (st.data.any (depCellMatch (depNormalizeCell st.position c)) = true →
            (DepParser.getCell st c).1 = st) ∧
        (st.data.any (depCellMatch (depNormalizeCell st.position c)) = false →
            (DepParser.getCell st c).1.data
              = st.data ++ [.cell (depNormalizeCell st.position c)])) ∧
    (∀ (st : DepState) (r : RangeShaped), r.fromRow.isNotNullish = true →
        (st.data.any (depRangeMatch (depNormalizeRange st.position r)) = true →
            (DepParser.getRange st r).1 = st) ∧
        (st.data.any (depRangeMatch (depNormalizeRange st.position r)) = false →
            (DepParser.getRange st r).1.data
              = st.data ++ [.range (depNormalizeRange st.position r)])) ∧
    (∀ (pos : Option PositionRec) (events : List DepEvent),
        List.Pairwise (fun a b => dupMatch b a = false)
          (DepParser.runEvents pos events).data) ∧
    (∀ (pos : Option PositionRec) (events : List DepEvent),
        (DepParser.runEvents pos events).data.Sublist
          (events.map (normEventRef pos))) := by
  refine ⟨?_, ?_, ?_, ?_, ?_, ?_⟩
  · intro st c
    simp only [DepParser.getCell]
    (repeat' split) <;> rfl
  · intro st r
    simp only [DepParser.getRange]
    (repeat' split) <;> rfl
  · intro st c h
    refine ⟨fun hm => ?_, fun hm => ?_⟩ <;> simp [DepParser.getCell, h, hm]
  · intro st r h
    refine ⟨fun hm => ?_, fun hm => ?_⟩ <;> simp [DepParser.getRange, h, hm]
  · intro pos events
    exact depData_pairwise_aux events { data := [], position := pos } (by simp)
  · intro pos events
    obtain ⟨t, ht1, ht2⟩ := depData_sublist_aux events { data := [], position := pos }
    simpa [DepParser.runEvents, ht1] using ht2

/-- Witness for C8 at concrete inputs: the stubs, a skipped duplicate
cell lookup, and a recorded fresh cell lookup. -/
theorem c8_dependency_dedup_witness :
    (DepParser.getCell { data := [], position := none } c8CellExample).2 = .num (.fin 0) ∧
    (DepParser.getCell c8StateExample c8CellExample).1 = c8StateExample ∧
    (DepParser.getCell { data := [], position := none } c8CellExample).1.data
      = [.cell c8CellExample] := by
  obtain ⟨h1, -, h3, -, -, -⟩ := c8_dependency_dedup
  refine ⟨h1 _ _, ?_, ?_⟩
  · exact (h3 c8StateExample c8CellExample rfl).1 (by rfl)
  · exact ((h3 { data := [], position := none } c8CellExample rfl).2 (by rfl)).trans (by rfl)

/-- Counterexample for C1: the claim says lexing and parsing errors are
returned by the engine rather than thrown, but on the concrete input
`1+` with a recorded parser error, `parse` throws (`Except.error`) the
formatted `#ERROR!` FormulaError instead of returning it, and a lexing
error is likewise thrown out of `lex`. -/
theorem c1_counterexample :
    FormulaParser.parse hostExample "1+" { errors := [] } (.ret .undefined)
        [c1ParserErrorExample] false
      = .error (.ferr (Utils.formatChevrotainError c1ParserErrorExample "1+")) ∧
    (Utils.formatChevrotainError c1ParserErrorExample "1+").code = "#ERROR!" ∧
    FormulaParser.parse hostExample "=@"
        { errors := [{ line := 1, column := 2, message := "unexpected character" }] }
        (.ret .undefined) [] false
      = .error (.ferr (FormulaError.ERROR (caretMessage "=@" 1 2 "unexpected character"))) ∧
    (FormulaError.ERROR (caretMessage "=@" 1 2 "unexpected character")).code = "#ERROR!" := by
  exact ⟨rfl, rfl, rfl, rfl⟩

/-- C1 (amended): `parse` returns evaluation results, including
evaluation-produced FormulaError values; but it throws for empty input
(a plain Error), throws lexing errors as `#ERROR!` FormulaErrors built
from the caret message, throws the first recorded parser error
formatted the same way (unless the evaluated result is itself a
FormulaError, which returns early), and throws exceptions escaping the
evaluation wrapped as `#ERROR!`.  The caret message carries the
`line:column` header and the caret line. -/
theorem c1_parse_error_channels :
    (∀ (host : EvalHost) (lexingResult : TokenizeResult) (run : RunOutcome)
        (pe : List ChevErrRec) (b : Bool),
        FormulaParser.parse host "" lexingResult run pe b
          = .error (.jsError "Input must not be empty.")) ∧
    (∀ (host : EvalHost) (inputText : String) (le : LexErrorRec) (les : List LexErrorRec)
        (run : RunOutcome) (pe : List ChevErrRec) (b : Bool),
        inputText.length ≠ 0 →
        FormulaParser.parse host inputText { errors := le :: les } run pe b
          = .error (.ferr (FormulaError.ERROR
              (caretMessage inputText le.line le.column le.message)))) ∧
    (∀ (host : EvalHost) (inputText : String) (v : JSValue) (pe : List ChevErrRec)
        (b : Bool) (e : FErr),
        inputText.length ≠ 0 →
        FormulaParser.checkFormulaResult host v b = .ok (.ferr e) →
        FormulaParser.parse host inputText { errors := [] } (.ret v) pe b = .ok (.ferr e)) ∧
    (∀ (host : EvalHost) (inputText : String) (v res : JSValue) (pe0 : ChevErrRec)
        (pes : List ChevErrRec) (b : Bool),
        inputText.length ≠ 0 →
        FormulaParser.checkFormulaResult host v b = .ok res →
        isFormulaError res = false →
        FormulaParser.parse host inputText { errors := [] } (.ret v) (pe0 :: pes) b
          = .error (.ferr (Utils.formatChevrotainError pe0 inputText))) ∧
    (∀ (host : EvalHost) (inputText : String) (v res : JSValue) (b : Bool),
        inputText.length ≠ 0 →
        FormulaParser.checkFormulaResult host v b = .ok res →
        isFormulaError res = false →
        FormulaParser.parse host inputText { errors := [] } (.ret v) [] b = .ok res) ∧
    (∀ (host : EvalHost) (inputText : String) (exc : JSErr) (pe : List ChevErrRec)
        (b : Bool),
        inputText.length ≠ 0 →
        FormulaParser.parse host inputText { errors := [] } (.exc exc) pe b
          = .error (.ferr (FormulaError.ERROR (jsErrMessage exc)))) ∧
    (∀ m : String, (FormulaError.ERROR m).code = "#ERROR!") ∧
    (∀ (inputText : String) (line column : Nat) (message : String),
        (("Error at position " ++ toString line ++ ":" ++ toString column).toList <:+:
          (caretMessage inputText line column message).toList) ∧
        ((String.mk (List.replicate (column - 1) ' ') ++ "^").toList <:+:
          (caretMessage inputText line column message).toList)) := by
  refine ⟨fun host lr run pe b => rfl, ?_, ?_, ?_, ?_, ?_, fun m => rfl, ?_⟩
  · intro host inputText le les run pe b hlen
    simp [FormulaParser.parse, lex, hlen]
  · intro host inputText v pe b e hlen hres
    simp [FormulaParser.parse, lex, hlen, hres, isFormulaError]
  · intro host inputText v res pe0 pes b hlen hres hne
    simp [FormulaParser.parse, lex, hlen, hres, hne]
  · intro host inputText v res b hlen hres hne
    simp [FormulaParser.parse, lex, hlen, hres, hne]
  · intro host inputText exc pe b hlen
    simp [FormulaParser.parse, lex, hlen]
  · intro inputText line column message
    constructor
    · refine ⟨("\n" ++ lineAtJs inputText line ++ "\n"
          ++ String.mk (List.replicate (column - 1) ' ') ++ "^\n").toList,
        ("\n" ++ message).toList, ?_⟩
      simp [caretMessage, String.toList]
    · refine ⟨("\n" ++ lineAtJs inputText line ++ "\n").toList,
        ("\n" ++ "Error at position " ++ toString line ++ ":" ++ toString column
          ++ "\n" ++ message).toList, ?_⟩
      simp [caretMessage, String.toList]

/-- Witness for C1 (amended) at concrete inputs: a `#DIV/0!` result
value is returned, a recorded parser error is thrown formatted, and a
lexing error is thrown formatted. -/
theorem c1_parse_error_channels_witness :
    FormulaParser.parse hostExample "1/0" { errors := [] } (.ret (.ferr FormulaError.DIV0))
        [] false
      = .ok (.ferr FormulaError.DIV0) ∧
    FormulaParser.parse hostExample "1+" { errors := [] } (.ret (.str "x"))
        [c1ParserErrorExample] false
      = .error (.ferr (Utils.formatChevrotainError c1ParserErrorExample "1+")) ∧
    FormulaParser.parse hostExample "=@"
        { errors := [{ line := 1, column := 2, message := "unexpected character" }] }
        (.ret .undefined) [] false
      = .error (.ferr (FormulaError.ERROR (caretMessage "=@" 1 2 "unexpected character"))) := by
  obtain ⟨-, h2, h3, h4, -, -, -, -⟩ := c1_parse_error_channels
  refine ⟨?_, ?_, ?_⟩
  · exact h3 hostExample "1/0" (.ferr FormulaError.DIV0) [] false FormulaError.DIV0
      (by decide) (by rfl)
  · exact h4 hostExample "1+" (.str "x") (.str "x") c1ParserErrorExample [] false
      (by decide) (by rfl) rfl
  · exact h2 hostExample "=@" { line := 1, column := 2, message := "unexpected character" }
      [] (.ret .undefined) [] false (by decide)
